import Mathlib

/-!
Verification of the mascot-rs MGF parsing core.

The Rust source is generic over an unsigned-integer type `I` and a float
type `F` (bounded by the capability traits `Zero`, `NaN`,
`StrictlyPositive`, `FromStr`, `PartialEq`, `PartialOrd`).  We instantiate
the embedding at `I := Nat` (the `usize` instance) and at `F := Frac`, an
exact-fraction numeric type (a legitimate instance of the capability
traits: finite decimal/scientific literals parse exactly, `is_nan` is
constantly false, comparisons are the rational-number comparisons).  All
concrete numeric literals appearing in the specification are finite
decimals, on which `f64` comparison behaves exactly like exact rational
comparison, so this instantiation is faithful for the properties at hand.

Strings are embedded as Lean `String`; the handful of `&str` methods the
source uses (`starts_with`, `strip_prefix`, `trim_start_matches`,
`split`, `trim`, `parse`) are defined below on `List Char` mirroring
their Rust semantics.
-/

namespace MascotRs

/-! ## The numeric type standing for the `F` parameter -/

/-- Exact fraction: the value is `num / den`.  Every `Frac` produced by the
number parser below has a positive power-of-ten denominator.  Mirrors the
`F` type parameter of the Rust source at an exact-rational instance. -/
structure Frac where
  num : Int
  den : Int
deriving DecidableEq, Repr

namespace Frac

/-- `PartialEq::eq` for `F`: value equality of fractions. -/
def beq (a b : Frac) : Bool := a.num * b.den == b.num * a.den

/-- `PartialOrd::lt` for `F` (correct for the positive denominators the
parser produces). -/
def blt (a b : Frac) : Bool := a.num * b.den < b.num * a.den

/-- `PartialOrd::gt` for `F`. -/
def bgt (a b : Frac) : Bool := blt b a

/-- `Add::add` for `F` (no normalisation; value-correct). -/
def add (a b : Frac) : Frac := ⟨a.num * b.den + b.num * a.den, a.den * b.den⟩

/-- `Sub::sub` for `F`. -/
def sub (a b : Frac) : Frac := ⟨a.num * b.den - b.num * a.den, a.den * b.den⟩

/-- `StrictlyPositive::is_strictly_positive` (`*self > 0.0`): the value
`num / den` is strictly positive iff `num * den > 0`. -/
def is_strictly_positive (a : Frac) : Bool := 0 < a.num * a.den

/-- `PartialOrd::le` for `F`. -/
def ble (a b : Frac) : Bool := a.num * b.den ≤ b.num * a.den

/-- `NaN::is_nan`: an exact fraction never represents NaN.  (This is the
`NaN` capability instance of our `F` type; the source's checks on it are
kept in place and are simply never triggered.) -/
def is_nan (_ : Frac) : Bool := false

/-- The rational value denoted by a `Frac`. -/
def val (a : Frac) : ℚ := (a.num : ℚ) / (a.den : ℚ)

end Frac

/-! ## `&str` helpers (Rust semantics, on `List Char`) -/

/-- Rust `str::split(sep)`: list of the (possibly empty) chunks between
separators; always non-empty. -/
def splitChars (sep : Char) : List Char → List (List Char)
  | [] => [[]]
  | c :: rest =>
    match splitChars sep rest with
    | [] => [[]]
    | h :: t => if c = sep then [] :: h :: t else (c :: h) :: t

theorem splitChars_ne_nil (sep : Char) (l : List Char) : splitChars sep l ≠ [] := by
  cases l with
  | nil => simp [splitChars]
  | cons c rest =>
    simp only [splitChars]
    cases h : splitChars sep rest with
    | nil => simp
    | cons a t =>
      by_cases hc : c = sep <;> simp [hc]

/-- Rust `str::starts_with(pre)`. -/
def hasPre : List Char → List Char → Bool
  | _, [] => true
  | [], _ :: _ => false
  | c :: cs, p :: ps => c = p && hasPre cs ps

/-- Rust `str::strip_prefix(pre)`. -/
def removePre : List Char → List Char → Option (List Char)
  | l, [] => some l
  | [], _ :: _ => none
  | c :: cs, p :: ps => if c = p then removePre cs ps else none

theorem removePre_length {l pre rest : List Char} :
    removePre l pre = some rest → rest.length + pre.length = l.length := by
  induction pre generalizing l rest with
  | nil => intro h; simp [removePre] at h; simp [h]
  | cons p ps ih =>
    intro h
    cases l with
    | nil => simp [removePre] at h
    | cons c cs =>
      simp only [removePre] at h
      by_cases hc : c = p
      · simp only [hc, if_pos rfl] at h
        have := ih h
        simp [List.length_cons]
        omega
      · simp [hc] at h

/-- Structural worker for `trimStartMatches`; the fuel `l.length + 1` is
always enough because a successful non-empty-prefix removal strictly
shortens the string (`removePre_length`). -/
def trimStartMatchesAux (pre : List Char) : Nat → List Char → List Char
  | 0, l => l
  | fuel + 1, l =>
    if pre = [] then l
    else
      match removePre l pre with
      | none => l
      | some rest => trimStartMatchesAux pre fuel rest

/-- Rust `str::trim_start_matches(pre)`: repeatedly removes the prefix. -/
def trimStartMatches (pre : List Char) (l : List Char) : List Char :=
  trimStartMatchesAux pre (l.length + 1) l

/-- Rust `str::trim` (ASCII whitespace suffices for this format). -/
def trimChars (l : List Char) : List Char :=
  ((l.dropWhile Char.isWhitespace).reverse.dropWhile Char.isWhitespace).reverse

/-! ## Number parsing (`FromStr` instances) -/

/-- Value of a digit string (most significant first), accumulator style. -/
def digitsToNat : List Char → Nat → Nat
  | [], acc => acc
  | c :: cs, acc => digitsToNat cs (acc * 10 + (c.toNat - '0'.toNat))

def allDigits (l : List Char) : Bool := l.all Char.isDigit

/-- Non-empty all-digit string to `Nat`. -/
def parseDigits (l : List Char) : Option Nat :=
  if l.isEmpty then none
  else if allDigits l then some (digitsToNat l 0) else none

/-- Rust `usize::from_str`: optional leading `+`, then one or more digits.
A leading `-` is rejected for unsigned types. -/
def parseUsize (l : List Char) : Option Nat :=
  match l with
  | '+' :: rest => parseDigits rest
  | _ => parseDigits l

/-- Splits at the first `e`/`E`, if any (for scientific notation). -/
def splitOnExpChar : List Char → List Char × Option (List Char)
  | [] => ([], none)
  | c :: rest =>
    if c = 'e' ∨ c = 'E' then ([], some rest)
    else
      match splitOnExpChar rest with
      | (m, e) => (c :: m, e)

/-- Optionally signed digit string to `Int` (exponent of a float literal). -/
def parseExp (l : List Char) : Option Int :=
  match l with
  | '-' :: d => (parseDigits d).map (fun n => -(n : Int))
  | '+' :: d => (parseDigits d).map (fun n => (n : Int))
  | d => (parseDigits d).map (fun n => (n : Int))

/-- Builds the fraction `sign * m / 10^k * 10^e` without normalisation. -/
def mkFrac (sign : Int) (m : Nat) (k : Nat) (e : Int) : Frac :=
  let e' : Int := e - (k : Int)
  if 0 ≤ e' then ⟨sign * (m : Int) * (10 : Int) ^ e'.toNat, 1⟩
  else ⟨sign * (m : Int), (10 : Int) ^ (-e').toNat⟩

/-- `f64::from_str` restricted to finite numeric literals, which is the
`FromStr` contract of our exact-fraction `F` instance: optional sign,
decimal significand (`123`, `123.`, `.5`, `1.25`), optional `e`/`E`
exponent with optional sign.  The special words `inf`/`nan` are not
values of this type and fail to parse. -/
def parseFrac (l : List Char) : Option Frac :=
  let signRest : Int × List Char :=
    match l with
    | '-' :: r => (-1, r)
    | '+' :: r => (1, r)
    | r => (1, r)
  let sign := signRest.1
  let rest := signRest.2
  match splitOnExpChar rest with
  | (mant, expPart) =>
    let expVal : Option Int :=
      match expPart with
      | none => some 0
      | some e => parseExp e
    match expVal with
    | none => none
    | some ev =>
      match splitChars '.' mant with
      | [a] =>
        if a.isEmpty || !allDigits a then none
        else some (mkFrac sign (digitsToNat a 0) 0 ev)
      | [a, b] =>
        if (a.isEmpty && b.isEmpty) || !allDigits a || !allDigits b then none
        else some (mkFrac sign (digitsToNat a 0 * 10 ^ b.length + digitsToNat b 0) b.length ev)
      | _ => none

/-! ## Errors

The source reports every failure as a `Result<_, String>` with a
descriptive message.  The embedding replaces each distinct `return Err`
site with a distinct constructor carrying the same data the message
interpolates; `?`-propagation is the `Except` monad.  (A few sites share
identical message text in the source; they keep separate constructors
here, which only refines the observable behaviour.)  Rust panics
(`unwrap` on `None` at unreachable program points) are modelled by the
dedicated `panic...` constructors. -/
inductive Err where
  | levelParse (line : String)
  | chargeParse (s : String)
  | ionModeInvalid (s : String)
  | mergedScansParse (line : String)
  | mergedStatsMergedParse (line : String)
  | mergedStatsTotalParse (line : String)
  | mergedStatsUnsupported (line : String)
  | mergedStatsLowQualityMissing (line : String)
  | mergedStatsLowCosineMissing (line : String)
  | mergedStatsLowQualityParse (line : String)
  | mergedStatsLowCosineParse (line : String)
  | mergedStatsSumMismatch (line : String)
  | mergeScansBadLine (line : String)
  | noLowQualityInfo
  | noLowCosineInfo
  | buildSumMismatch
  | noScans
  | panicTotalNone
  | panicSplitEmpty
  | featureIdParse (line : String)
  | featureIdMismatch (line : String)
  | pepmassParse (line : String)
  | pepmassNaN (line : String)
  | pepmassNotPositive (line : String)
  | pepmassMismatch (line : String)
  | scansParse (line : String)
  | scansMismatch (line : String)
  | metadataChargeParse (line : String)
  | chargeMismatch (line : String)
  | ionModeMismatch (line : String)
  | seqMismatch (line : String)
  | sourceInstrumentMismatch (line : String)
  | rtParse (line : String)
  | rtNaN (line : String)
  | rtNotPositive (line : String)
  | rtMismatch (line : String)
  | organismMismatch (line : String)
  | unexpectedMetadataLine (line : String)
  | minusOneScans
  | missingFeatureId
  | missingParentIonMass
  | missingRetentionTime
  | missingCharge
  | parentIonMassNotPositive
  | retentionTimeNotPositive
  | emptySourceInstrument
  | emptySequence
  | emptyOrganism
  | emptyName
  | badSmiles
  | mzTokenMissing (line : String)
  | mzParseFailed (line : String)
  | intensityTokenMissing
  | intensityParseFailed
  | mzNaN (line : String)
  | mzNotPositive (line : String)
  | intensityNaN (line : String)
  | intensityNotPositive (line : String)
  | levelUnset
  | notAscending (line : String) (current previous : Frac)
  | dataLevelMissing
  | dataLengthMismatch (m n : Nat)
  | dataEmpty
  | endWithoutBegin
  | endNotBuildableEmptyStack (metaStatus : Bool)
  | endNotBuildable (metaStatus dataStatus : Bool)
  | endLevelTwoEmptyStack (metaStatus : Bool)
  | endLevelTwoNotBuildable (metaStatus dataStatus : Bool)
  | lineBeforeBegin (line : String)
  | panicNoLastBuilder
  | builderCorrupted
  | parentMassNotInFirstLevel (p : Frac)
  | panicParentMassNone
  | noFirstLevel
  | noSecondLevel

/-! ## Scalar value types (`charge.rs`, `ionmode.rs`,
`fragmentation_spectra_level.rs`) -/

inductive Charge where
  | One | OnePlus | Two | TwoPlus | Three | ThreePlus | Four | FourPlus
deriving DecidableEq, Repr

namespace Charge

/-- `Charge::from_str` (`charge.rs`): exact match on the full
`CHARGE=<1..4>[+]` line. -/
def from_str (s : String) : Except Err Charge :=
  if s = "CHARGE=1" then .ok .One
  else if s = "CHARGE=1+" then .ok .OnePlus
  else if s = "CHARGE=2" then .ok .Two
  else if s = "CHARGE=2+" then .ok .TwoPlus
  else if s = "CHARGE=3" then .ok .Three
  else if s = "CHARGE=3+" then .ok .ThreePlus
  else if s = "CHARGE=4" then .ok .Four
  else if s = "CHARGE=4+" then .ok .FourPlus
  else .error (.chargeParse s)

end Charge

inductive IonMode where
  | Positive | Negative
deriving DecidableEq, Repr

namespace IonMode

/-- `IonMode::is_nan_ion_mode_from_str` (`ionmode.rs`). -/
def is_nan_ion_mode_from_str (s : String) : Bool :=
  s = "IONMODE=N/A" || s = "N/A"

/-- `IonMode::from_str` (`ionmode.rs`). -/
def from_str (s : String) : Except Err IonMode :=
  if s = "IONMODE=positive" || s = "positive" || s = "Positive" then .ok .Positive
  else if s = "IONMODE=negative" || s = "negative" || s = "Negative" then .ok .Negative
  else .error (.ionModeInvalid s)

end IonMode

inductive FragmentationSpectraLevel where
  | One | Two
deriving DecidableEq, Repr

namespace FragmentationSpectraLevel

/-- `FragmentationSpectraLevel::from_str`
(`fragmentation_spectra_level.rs`): only `MSLEVEL=1` and `MSLEVEL=2`
parse. -/
def from_str (s : String) : Except Err FragmentationSpectraLevel :=
  if s = "MSLEVEL=1" then .ok .One
  else if s = "MSLEVEL=2" then .ok .Two
  else .error (.levelParse s)

/-- The `Ord` instance's binary minimum (`One < Two`). -/
def minWith (a b : FragmentationSpectraLevel) : FragmentationSpectraLevel :=
  match a, b with
  | .One, _ => .One
  | _, .One => .One
  | _, _ => .Two

/-- The `Ord` instance's binary maximum. -/
def maxWith (a b : FragmentationSpectraLevel) : FragmentationSpectraLevel :=
  match a, b with
  | .Two, _ => .Two
  | _, .Two => .Two
  | _, _ => .One

end FragmentationSpectraLevel

/-! ## Merged-scans metadata (`merge_scans_metadata.rs`,
`merge_scans_metadata_builder.rs`), at `I := Nat` (`usize`) -/

structure MergeScansMetadata where
  scans : List Nat
  removed_due_to_low_quality : Nat
  removed_due_to_low_cosine : Nat
deriving DecidableEq, Repr

namespace MergeScansMetadata

/-- `MergeScansMetadata::new`: rejects an empty scan list. -/
def new (scans : List Nat) (removed_due_to_low_quality removed_due_to_low_cosine : Nat) :
    Except Err MergeScansMetadata :=
  if scans.isEmpty then .error .noScans
  else .ok ⟨scans, removed_due_to_low_quality, removed_due_to_low_cosine⟩

end MergeScansMetadata

structure MergeScansMetadataBuilder where
  scans : List Nat
  removed_due_to_low_quality : Option Nat
  removed_due_to_low_cosine : Option Nat
  total_scans : Option Nat
deriving DecidableEq, Repr

namespace MergeScansMetadataBuilder

/-- `MergeScansMetadataBuilder::default`. -/
def default : MergeScansMetadataBuilder := ⟨[], none, none, none⟩

/-- `MergeScansMetadataBuilder::can_parse_line`. -/
def can_parse_line (line : String) : Bool :=
  hasPre line.data "MERGED_SCANS=".data || hasPre line.data "MERGED_STATS=".data

/-- `MergeScansMetadataBuilder::can_build`. -/
def can_build (self : MergeScansMetadataBuilder) : Bool :=
  self.removed_due_to_low_cosine.isSome && self.removed_due_to_low_quality.isSome
    && self.total_scans.isSome

/-- `MergeScansMetadataBuilder::build`.  The source `unwrap`s
`total_scans` after checking only the two `removed` fields; a state with
`removed` counts but no total would panic there (`panicTotalNone`) — such
a state is unreachable through `digest_line`, which sets all three
together. -/
def build (self : MergeScansMetadataBuilder) : Except Err MergeScansMetadata :=
  match self.removed_due_to_low_quality with
  | none => .error .noLowQualityInfo
  | some rq =>
    match self.removed_due_to_low_cosine with
    | none => .error .noLowCosineInfo
    | some rc =>
      match self.total_scans with
      | none => .error .panicTotalNone
      | some total =>
        if total ≠ self.scans.length + rq + rc then .error .buildSumMismatch
        else MergeScansMetadata.new self.scans rq rc

/-- `MergeScansMetadataBuilder::digest_line`.  The two recognised shapes
are `MERGED_SCANS=<id>,<id>,...` (replaces the scan list) and
`MERGED_STATS=<merged> / <total> (<n> removed due to low quality, <m>
removed due to low cosine).` whose inline arithmetic check
`merged + n + m == total` fails immediately on mismatch. -/
def digest_line (self : MergeScansMetadataBuilder) (line : String) :
    Except Err Unit × MergeScansMetadataBuilder :=
  if hasPre line.data "MERGED_SCANS=".data then
    match (splitChars ',' (trimStartMatches "MERGED_SCANS=".data line.data)).mapM parseUsize with
    | none => (.error (.mergedScansParse line), self)
    | some scans => (.ok (), { self with scans := scans })
  else if hasPre line.data "MERGED_STATS=".data then
    -- the source shadows `line` with the stripped remainder
    let rest := trimStartMatches "MERGED_STATS=".data line.data
    match splitChars '(' rest with
    | [] => (.error .panicSplitEmpty, self)
    | frac0 :: parts1 =>
      match splitChars '/' frac0 with
      | [] => (.error .panicSplitEmpty, self)
      | sm0 :: fracRest =>
        match parseUsize (trimChars sm0) with
        | none => (.error (.mergedStatsMergedParse (String.mk rest)), self)
        | some scans_merged =>
          match fracRest with
          | [] => (.error (.mergedStatsUnsupported (String.mk rest)), self)
          | t0 :: _ =>
            match parseUsize (trimChars t0) with
            | none => (.error (.mergedStatsTotalParse (String.mk rest)), self)
            | some total_scans =>
              match parts1 with
              | [] => (.error (.mergedStatsUnsupported (String.mk rest)), self)
              | removed0 :: _ =>
                match splitChars ',' removed0 with
                | [] => (.error .panicSplitEmpty, self)
                | lowq :: removedRest =>
                  match removedRest with
                  | [] => (.error (.mergedStatsLowCosineMissing (String.mk rest)), self)
                  | lowc :: _ =>
                    match splitChars ' ' (trimChars lowq) with
                    | [] => (.error (.mergedStatsLowQualityMissing (String.mk rest)), self)
                    | lq0 :: _ =>
                      match parseUsize lq0 with
                      | none => (.error (.mergedStatsLowQualityParse (String.mk rest)), self)
                      | some removed_due_to_low_quality =>
                        match splitChars ' ' (trimChars lowc) with
                        | [] => (.error (.mergedStatsUnsupported (String.mk rest)), self)
                        | lc0 :: _ =>
                          match parseUsize lc0 with
                          | none => (.error (.mergedStatsLowCosineParse (String.mk rest)), self)
                          | some removed_due_to_low_cosine =>
                            if scans_merged + removed_due_to_low_quality
                                + removed_due_to_low_cosine ≠ total_scans then
                              (.error (.mergedStatsSumMismatch (String.mk rest)), self)
                            else
                              (.ok (),
                                { self with
                                  removed_due_to_low_cosine := some removed_due_to_low_cosine
                                  removed_due_to_low_quality := some removed_due_to_low_quality
                                  total_scans := some total_scans })
  else (.error (.mergeScansBadLine line), self)

end MergeScansMetadataBuilder

/-! ## Record metadata (`mascot_generic_format_metadata.rs`,
`mascot_generic_format_metadata_builder.rs`) -/

/-- `MascotGenericFormatMetadata`.  The repository snapshot stores
`parent_ion_mass : F` in this file while `mascot_generic_format.rs`
reads it as an `Option<F>` and back-fills it through
`set_parent_ion_mass`; the embedding keeps the `Option` shape those
callers require, with the constructor storing `some`.  The `pubmed_id`
field is omitted: its leaf parser is outside the specified core and no
code path of the embedded components ever sets or reads it. -/
structure MascotGenericFormatMetadata where
  feature_id : Nat
  parent_ion_mass : Option Frac
  retention_time : Option Frac
  charge : Charge
  ion_mode : Option IonMode
  sequence : Option String
  source_instrument : Option String
  organism : Option String
  name : Option String
  smiles : Option String
  merged_scans_metadata : Option MergeScansMetadata
deriving DecidableEq, Repr

namespace MascotGenericFormatMetadata

/-- `MascotGenericFormatMetadata::new`: positivity checks on the parent
ion mass and retention time, non-emptiness checks on the optional
strings, `N/A` rejection for smiles. -/
def new (feature_id : Nat) (parent_ion_mass : Frac) (retention_time : Option Frac)
    (source_instrument sequence organism name smiles : Option String)
    (charge : Charge) (ion_mode : Option IonMode)
    (merged_scans_metadata : Option MergeScansMetadata) :
    Except Err MascotGenericFormatMetadata :=
  if ¬ parent_ion_mass.is_strictly_positive then .error .parentIonMassNotPositive
  else if retention_time.any (fun rt => ¬ rt.is_strictly_positive) then
    .error .retentionTimeNotPositive
  else if source_instrument.any String.isEmpty then .error .emptySourceInstrument
  else if sequence.any String.isEmpty then .error .emptySequence
  else if organism.any String.isEmpty then .error .emptyOrganism
  else if name.any String.isEmpty then .error .emptyName
  else if smiles.any (fun s => s.isEmpty || s = "N/A") then .error .badSmiles
  else
    .ok
      { feature_id := feature_id
        parent_ion_mass := some parent_ion_mass
        retention_time := retention_time
        charge := charge
        ion_mode := ion_mode
        sequence := sequence
        source_instrument := source_instrument
        organism := organism
        name := name
        smiles := smiles
        merged_scans_metadata := merged_scans_metadata }

/-- `MascotGenericFormatMetadata::set_parent_ion_mass` (used by the
back-fill in `MascotGenericFormat::new`). -/
def set_parent_ion_mass (self : MascotGenericFormatMetadata) (p : Frac) :
    MascotGenericFormatMetadata :=
  { self with parent_ion_mass := some p }

end MascotGenericFormatMetadata

structure MascotGenericFormatMetadataBuilder where
  feature_id : Option Nat
  parent_ion_mass : Option Frac
  retention_time : Option Frac
  charge : Option Charge
  organism : Option String
  sequence : Option String
  source_instrument : Option String
  ion_mode : Option IonMode
  minus_one_scans : Bool
  merge_scans_metadata_builder : Option MergeScansMetadataBuilder
deriving DecidableEq, Repr

namespace MascotGenericFormatMetadataBuilder

/-- `MascotGenericFormatMetadataBuilder::default`. -/
def default : MascotGenericFormatMetadataBuilder :=
  ⟨none, none, none, none, none, none, none, none, false, none⟩

/-- `MascotGenericFormatMetadataBuilder::can_parse_line`. -/
def can_parse_line (line : String) : Bool :=
  hasPre line.data "FEATURE_ID=".data
    || hasPre line.data "PEPMASS=".data
    || hasPre line.data "SCANS=".data
    || hasPre line.data "RTINSECONDS=".data
    || hasPre line.data "FILENAME=".data
    || hasPre line.data "SOURCE_INSTRUMENT=".data
    || hasPre line.data "IONMODE=".data
    || hasPre line.data "ORGANISM=".data
    || hasPre line.data "SEQ=".data
    || hasPre line.data "CHARGE=".data
    || MergeScansMetadataBuilder.can_parse_line line

/-- `MascotGenericFormatMetadataBuilder::can_build`. -/
def can_build (self : MascotGenericFormatMetadataBuilder) : Bool :=
  self.feature_id.isSome && self.parent_ion_mass.isSome && self.retention_time.isSome
    && self.charge.isSome && !self.minus_one_scans
    && (match self.merge_scans_metadata_builder with
        | none => true
        | some builder => builder.can_build)

/-- `MascotGenericFormatMetadataBuilder::build`. -/
def build (self : MascotGenericFormatMetadataBuilder) :
    Except Err MascotGenericFormatMetadata :=
  if self.minus_one_scans then .error .minusOneScans
  else
    match self.feature_id with
    | none => .error .missingFeatureId
    | some feature_id =>
      match self.parent_ion_mass with
      | none => .error .missingParentIonMass
      | some parent_ion_mass =>
        match self.retention_time with
        | none => .error .missingRetentionTime
        | some retention_time =>
          match self.charge with
          | none => .error .missingCharge
          | some charge =>
            match self.merge_scans_metadata_builder.map MergeScansMetadataBuilder.build with
            | some (.error e) => .error e
            | some (.ok merged) =>
              MascotGenericFormatMetadata.new feature_id parent_ion_mass
                (some retention_time) self.source_instrument self.sequence self.organism
                none none charge self.ion_mode (some merged)
            | none =>
              MascotGenericFormatMetadata.new feature_id parent_ion_mass
                (some retention_time) self.source_instrument self.sequence self.organism
                none none charge self.ion_mode none

/-- `MascotGenericFormatMetadataBuilder::digest_line`: the `if let
Some(stripped) = line.strip_prefix(KEY)` chain, in source order. -/
def digest_line (self : MascotGenericFormatMetadataBuilder) (line : String) :
    Except Err Unit × MascotGenericFormatMetadataBuilder :=
  match removePre line.data "FEATURE_ID=".data with
  | some stripped =>
    (match parseUsize stripped with
     | none => (.error (.featureIdParse line), self)
     | some feature_id =>
       match self.feature_id with
       | some observed_feature_id =>
         if observed_feature_id ≠ feature_id then (.error (.featureIdMismatch line), self)
         else (.ok (), self)
       | none => (.ok (), { self with feature_id := some feature_id }))
  | none =>
  match removePre line.data "PEPMASS=".data with
  | some stripped =>
    (match parseFrac stripped with
     | none => (.error (.pepmassParse line), self)
     | some parent_ion_mass =>
       if parent_ion_mass.is_nan then (.error (.pepmassNaN line), self)
       else if ¬ parent_ion_mass.is_strictly_positive then
         (.error (.pepmassNotPositive line), self)
       else
         match self.parent_ion_mass with
         | some observed =>
           if ¬ Frac.beq parent_ion_mass observed then (.error (.pepmassMismatch line), self)
           else (.ok (), self)
         | none => (.ok (), { self with parent_ion_mass := some parent_ion_mass }))
  | none =>
  match removePre line.data "SCANS=".data with
  | some stripped =>
    (if stripped = "-1".data then (.ok (), { self with minus_one_scans := true })
     else
       -- the source clears `minus_one_scans` before attempting the parse
       let self1 := { self with minus_one_scans := false }
       match parseUsize stripped with
       | none => (.error (.scansParse line), self1)
       | some scans =>
         match self1.feature_id with
         | some feature_id =>
           if scans ≠ feature_id then (.error (.scansMismatch line), self1)
           else (.ok (), self1)
         | none => (.ok (), { self1 with feature_id := some scans }))
  | none =>
  if hasPre line.data "CHARGE=".data then
    match Charge.from_str line with
    | .error _ => (.error (.metadataChargeParse line), self)
    | .ok charge =>
      match self.charge with
      | some observed_charge =>
        if observed_charge ≠ charge then (.error (.chargeMismatch line), self)
        else (.ok (), self)
      | none => (.ok (), { self with charge := some charge })
  else
  match removePre line.data "IONMODE=".data with
  | some stripped =>
    (let s := String.mk stripped
     if IonMode.is_nan_ion_mode_from_str s then (.ok (), self)
     else
       match IonMode.from_str s with
       | .error e => (.error e, self)
       | .ok this_ion_mode =>
         match self.ion_mode with
         | some ion_mode =>
           if ion_mode ≠ this_ion_mode then (.error (.ionModeMismatch line), self)
           else (.ok (), { self with ion_mode := some this_ion_mode })
         | none => (.ok (), { self with ion_mode := some this_ion_mode }))
  | none =>
  match removePre line.data "SEQ=".data with
  | some stripped =>
    (let s := String.mk stripped
     match self.sequence with
     | some sequence =>
       if sequence ≠ s then (.error (.seqMismatch line), self) else (.ok (), self)
     | none =>
       if s ≠ "*..*" then (.ok (), { self with sequence := some s })
       else (.ok (), self))
  | none =>
  match removePre line.data "SOURCE_INSTRUMENT=".data with
  | some stripped =>
    (let s := String.mk stripped
     match self.source_instrument with
     | some observed_source_instrument =>
       if observed_source_instrument ≠ s then (.error (.sourceInstrumentMismatch line), self)
       else (.ok (), self)
     | none => (.ok (), { self with source_instrument := some s }))
  | none =>
  match removePre line.data "RTINSECONDS=".data with
  | some stripped =>
    (match parseFrac stripped with
     | none => (.error (.rtParse line), self)
     | some retention_time =>
       if retention_time.is_nan then (.error (.rtNaN line), self)
       else if ¬ retention_time.is_strictly_positive then
         (.error (.rtNotPositive line), self)
       else
         match self.retention_time with
         | some observed_retention_time =>
           if ¬ Frac.beq observed_retention_time retention_time then
             (.error (.rtMismatch line), self)
           else (.ok (), self)
         | none => (.ok (), { self with retention_time := some retention_time }))
  | none =>
  match removePre line.data "ORGANISM=".data with
  | some stripped =>
    (let s := String.mk stripped
     match self.organism with
     | some observed_organism =>
       if observed_organism ≠ s then (.error (.organismMismatch line), self)
       else (.ok (), self)
     | none => (.ok (), { self with organism := some s }))
  | none =>
  if hasPre line.data "FILENAME=".data then (.ok (), self)
  else if MergeScansMetadataBuilder.can_parse_line line then
    -- lazily instantiated on the first merged-scans line
    let b0 := self.merge_scans_metadata_builder.getD MergeScansMetadataBuilder.default
    match b0.digest_line line with
    | (.error e, b1) => (.error e, { self with merge_scans_metadata_builder := some b1 })
    | (.ok (), b1) => (.ok (), { self with merge_scans_metadata_builder := some b1 })
  else (.error (.unexpectedMetadataLine line), self)

end MascotGenericFormatMetadataBuilder

/-! ## Spectrum level data (`mascot_generic_format_data.rs`,
`mascot_generic_format_data_builder.rs`) -/

structure MascotGenericFormatData where
  level : FragmentationSpectraLevel
  mass_divided_by_charge_ratios : List Frac
  fragment_intensities : List Frac
deriving DecidableEq, Repr

namespace MascotGenericFormatData

/-- `MascotGenericFormatData::new`: equal lengths, non-empty. -/
def new (level : FragmentationSpectraLevel)
    (mass_divided_by_charge_ratios fragment_intensities : List Frac) :
    Except Err MascotGenericFormatData :=
  if mass_divided_by_charge_ratios.length ≠ fragment_intensities.length then
    .error (.dataLengthMismatch mass_divided_by_charge_ratios.length
      fragment_intensities.length)
  else if mass_divided_by_charge_ratios.isEmpty then .error .dataEmpty
  else .ok ⟨level, mass_divided_by_charge_ratios, fragment_intensities⟩

/-- `MascotGenericFormatData::has_mass_divided_by_charge_ratio`:
`PartialEq` membership. -/
def has_mass_divided_by_charge_ratio (self : MascotGenericFormatData) (m : Frac) : Bool :=
  self.mass_divided_by_charge_ratios.any (fun x => Frac.beq x m)

/-- `MascotGenericFormatData::min_mass_divided_by_charge_ratio`
(`min_by` with `partial_cmp`; the source `unwrap`s, panicking on an empty
list, which `new` rules out — the `[]` branch here is unreachable). -/
def min_mass_divided_by_charge_ratio (self : MascotGenericFormatData) : Frac :=
  match self.mass_divided_by_charge_ratios with
  | [] => ⟨0, 1⟩
  | h :: t => t.foldl (fun acc x => if Frac.blt x acc then x else acc) h

end MascotGenericFormatData

structure MascotGenericFormatDataBuilder where
  level : Option FragmentationSpectraLevel
  mass_divided_by_charge_ratios : List Frac
  fragment_intensities : List Frac
deriving DecidableEq, Repr

namespace MascotGenericFormatDataBuilder

/-- `MascotGenericFormatDataBuilder::default`. -/
def default : MascotGenericFormatDataBuilder := ⟨none, [], []⟩

/-- `MascotGenericFormatDataBuilder::is_level_two`: errors when the level
tag has not been set. -/
def is_level_two (self : MascotGenericFormatDataBuilder) : Except Err Bool :=
  match self.level with
  | some .Two => .ok true
  | some .One => .ok false
  | none => .error .levelUnset

/-- Modelled from the spec: `is_empty` on a spectrum level builder.  The
method is called by `has_empty_data_builders` in
`mascot_generic_format_builder.rs` but its definition is absent from the
`src/` snapshot of `mascot_generic_format_data_builder.rs`; per the
specification's "empty level" / "empty arrays" wording it holds when no
peak data has been accumulated. -/
def is_empty (self : MascotGenericFormatDataBuilder) : Bool :=
  self.mass_divided_by_charge_ratios.isEmpty && self.fragment_intensities.isEmpty

/-- `MascotGenericFormatDataBuilder::can_parse_line`. -/
def can_parse_line (line : String) : Bool :=
  hasPre line.data "MSLEVEL=".data
    || hasPre line.data "SPECTYPE=CORRELATED MS".data
    || (line.data.contains ' '
        && (splitChars ' ' line.data).all (fun s => (parseFrac s).isSome))

/-- `MascotGenericFormatDataBuilder::can_build`. -/
def can_build (self : MascotGenericFormatDataBuilder) : Bool :=
  self.level.isSome
    && self.mass_divided_by_charge_ratios.length == self.fragment_intensities.length
    && !self.mass_divided_by_charge_ratios.isEmpty

/-- `MascotGenericFormatDataBuilder::build`. -/
def build (self : MascotGenericFormatDataBuilder) : Except Err MascotGenericFormatData :=
  match self.level with
  | none => .error .dataLevelMissing
  | some level =>
    MascotGenericFormatData.new level self.mass_divided_by_charge_ratios
      self.fragment_intensities

/-- `MascotGenericFormatDataBuilder::digest_line`: an `MSLEVEL=` line
(re)sets the level tag, `SPECTYPE=CORRELATED MS` is ignored, and a peak
line is parsed as two floats, validated (NaN, strict positivity,
ascending order under a level-Two tag), then pushed onto both lists. -/
def digest_line (self : MascotGenericFormatDataBuilder) (line : String) :
    Except Err Unit × MascotGenericFormatDataBuilder :=
  if hasPre line.data "MSLEVEL=".data then
    match FragmentationSpectraLevel.from_str line with
    | .error e => (.error e, self)
    | .ok lvl => (.ok (), { self with level := some lvl })
  else if hasPre line.data "SPECTYPE=CORRELATED MS".data then (.ok (), self)
  else
    match splitChars ' ' line.data with
    | [] => (.error (.mzTokenMissing line), self) -- `split` is never empty; unreachable
    | s0 :: rest =>
      match parseFrac s0 with
      | none => (.error (.mzParseFailed line), self)
      | some mass_divided_by_charge_ratio =>
        match rest with
        | [] => (.error .intensityTokenMissing, self)
        | s1 :: _ =>
          match parseFrac s1 with
          | none => (.error .intensityParseFailed, self)
          | some fragment_intensity =>
            if mass_divided_by_charge_ratio.is_nan then (.error (.mzNaN line), self)
            else if ¬ mass_divided_by_charge_ratio.is_strictly_positive then
              (.error (.mzNotPositive line), self)
            else if fragment_intensity.is_nan then (.error (.intensityNaN line), self)
            else if ¬ fragment_intensity.is_strictly_positive then
              (.error (.intensityNotPositive line), self)
            else
              match self.mass_divided_by_charge_ratios.getLast? with
              | some previous =>
                (match self.is_level_two with
                 | .error e => (.error e, self)
                 | .ok true =>
                   if Frac.bgt previous mass_divided_by_charge_ratio then
                     (.error (.notAscending line mass_divided_by_charge_ratio previous),
                       self)
                   else
                     (.ok (),
                       { self with
                         mass_divided_by_charge_ratios :=
                           self.mass_divided_by_charge_ratios
                             ++ [mass_divided_by_charge_ratio]
                         fragment_intensities :=
                           self.fragment_intensities ++ [fragment_intensity] })
                 | .ok false =>
                   (.ok (),
                     { self with
                       mass_divided_by_charge_ratios :=
                         self.mass_divided_by_charge_ratios
                           ++ [mass_divided_by_charge_ratio]
                       fragment_intensities :=
                         self.fragment_intensities ++ [fragment_intensity] }))
              | none =>
                (.ok (),
                  { self with
                    mass_divided_by_charge_ratios :=
                      self.mass_divided_by_charge_ratios
                        ++ [mass_divided_by_charge_ratio]
                    fragment_intensities :=
                      self.fragment_intensities ++ [fragment_intensity] })

end MascotGenericFormatDataBuilder

/-! ## The record and the record builder (`mascot_generic_format.rs`,
`mascot_generic_format_builder.rs`) -/

structure MascotGenericFormat where
  metadata : MascotGenericFormatMetadata
  data : List MascotGenericFormatData
deriving DecidableEq, Repr

namespace MascotGenericFormat

/-- `MascotGenericFormat::feature_id`. -/
def feature_id (self : MascotGenericFormat) : Nat := self.metadata.feature_id

/-- `MascotGenericFormat::parent_ion_mass`. -/
def parent_ion_mass (self : MascotGenericFormat) : Option Frac :=
  self.metadata.parent_ion_mass

/-- `MascotGenericFormat::min_fragmentation_level`
(`data.iter().map(level).min()`; the source `unwrap`s, panicking for
empty data — `none` here — which no builder-produced record has). -/
def min_fragmentation_level (self : MascotGenericFormat) :
    Option FragmentationSpectraLevel :=
  self.data.foldl
    (fun acc d =>
      match acc with
      | none => some d.level
      | some a => some (a.minWith d.level)) none

/-- `MascotGenericFormat::max_fragmentation_level`. -/
def max_fragmentation_level (self : MascotGenericFormat) :
    Option FragmentationSpectraLevel :=
  self.data.foldl
    (fun acc d =>
      match acc with
      | none => some d.level
      | some a => some (a.maxWith d.level)) none

/-- `MascotGenericFormat::has_first_level`. -/
def has_first_level (self : MascotGenericFormat) : Bool :=
  self.min_fragmentation_level == some .One

/-- `MascotGenericFormat::has_second_level`. -/
def has_second_level (self : MascotGenericFormat) : Bool :=
  self.max_fragmentation_level == some .Two

/-- `MascotGenericFormat::get_first_fragmentation_level`. -/
def get_first_fragmentation_level (self : MascotGenericFormat) :
    Except Err MascotGenericFormatData :=
  match self.data.find? (fun d => d.level == .One) with
  | some d => .ok d
  | none => .error .noFirstLevel

/-- `MascotGenericFormat::get_second_fragmentation_level`. -/
def get_second_fragmentation_level (self : MascotGenericFormat) :
    Except Err MascotGenericFormatData :=
  match self.data.find? (fun d => d.level == .Two) with
  | some d => .ok d
  | none => .error .noSecondLevel

/-- `MascotGenericFormat::second_fragmentation_level_mass_divided_by_charge_ratios_iter`. -/
def second_fragmentation_level_mass_divided_by_charge_ratios_iter
    (self : MascotGenericFormat) : Except Err (List Frac) := do
  pure (← self.get_second_fragmentation_level).mass_divided_by_charge_ratios

/-- `MascotGenericFormat::new`: back-fills a missing parent ion mass from
the level-One minimum, then cross-checks that the parent ion mass equals
*some* mass of the level-One spectrum when one is present. -/
def new (metadata : MascotGenericFormatMetadata) (data : List MascotGenericFormatData) :
    Except Err MascotGenericFormat := do
  let mgf0 : MascotGenericFormat := ⟨metadata, data⟩
  let mgf ←
    if mgf0.parent_ion_mass.isNone && mgf0.has_first_level then do
      let fl ← mgf0.get_first_fragmentation_level
      pure (MascotGenericFormat.mk
        (mgf0.metadata.set_parent_ion_mass fl.min_mass_divided_by_charge_ratio) mgf0.data)
    else pure mgf0
  match mgf.get_first_fragmentation_level with
  | .ok first_mgf =>
    match mgf.parent_ion_mass with
    | some p =>
      if ¬ first_mgf.has_mass_divided_by_charge_ratio p then
        .error (.parentMassNotInFirstLevel p)
      else .ok mgf
    | none => .error .panicParentMassNone -- `unwrap`; unreachable after the back-fill
  | .error _ => .ok mgf

/-- Inner loop of `find_sorted_matches`: iterates over the second
sequence *after* `skip(lowest_index)`, with `j` the `enumerate` counter
of the *skipped* iterator (this is exactly what the source does);
threads the mutable `lowest_index`. -/
def findMatchesInner (i : Nat) (low_bound high_bound shift : Frac) :
    List Frac → Nat → Nat → List (Nat × Nat) × Nat
  | [], _, lowest_index => ([], lowest_index)
  | second_mz :: rest, j, lowest_index =>
    let shifted_second_mz := second_mz.add shift
    if Frac.bgt shifted_second_mz high_bound then ([], lowest_index)
    else if Frac.blt shifted_second_mz low_bound then
      findMatchesInner i low_bound high_bound shift rest (j + 1) j
    else
      match findMatchesInner i low_bound high_bound shift rest (j + 1) lowest_index with
      | (ms, li) => ((i, j) :: ms, li)

/-- Outer loop of `find_sorted_matches` over the enumerated first
sequence. -/
def findMatchesOuter (second : List Frac) (tolerance shift : Frac) :
    List (Nat × Frac) → Nat → List (Nat × Nat)
  | [], _ => []
  | (i, first_mz) :: rest, lowest_index =>
    let low_bound := first_mz.sub tolerance
    let high_bound := first_mz.add tolerance
    match findMatchesInner i low_bound high_bound shift (second.drop lowest_index) 0
        lowest_index with
    | (ms, li) => ms ++ findMatchesOuter second tolerance shift rest li

/-- `MascotGenericFormat::find_sorted_matches`.  The `?` on the other
record's level-Two iterator fires inside the outer loop, hence only when
the first sequence is non-empty. -/
def find_sorted_matches (self other : MascotGenericFormat) (tolerance shift : Frac) :
    Except Err (List (Nat × Nat)) := do
  let firstList ← self.second_fragmentation_level_mass_divided_by_charge_ratios_iter
  match firstList with
  | [] => pure []
  | _ => do
    let secondList ← other.second_fragmentation_level_mass_divided_by_charge_ratios_iter
    pure (findMatchesOuter secondList tolerance shift firstList.enum 0)

end MascotGenericFormat

structure MascotGenericFormatBuilder where
  metadata_builder : MascotGenericFormatMetadataBuilder
  data_builders : List MascotGenericFormatDataBuilder
  section_open : Bool
  corruption : Bool
deriving DecidableEq, Repr

namespace MascotGenericFormatBuilder

/-- `MascotGenericFormatBuilder::default`. -/
def default : MascotGenericFormatBuilder :=
  ⟨MascotGenericFormatMetadataBuilder.default, [], false, false⟩

/-- `MascotGenericFormatBuilder::is_corrupted`. -/
def is_corrupted (self : MascotGenericFormatBuilder) : Bool := self.corruption

/-- `MascotGenericFormatBuilder::is_level_two`
(`is_level_two().unwrap_or(false)` over the stack). -/
def is_level_two (self : MascotGenericFormatBuilder) : Bool :=
  self.data_builders.any fun b =>
    match b.is_level_two with
    | .ok t => t
    | .error _ => false

/-- `MascotGenericFormatBuilder::has_empty_data_builders`. -/
def has_empty_data_builders (self : MascotGenericFormatBuilder) : Bool :=
  self.data_builders.any MascotGenericFormatDataBuilder.is_empty

/-- `MascotGenericFormatBuilder::feature_id`. -/
def feature_id (self : MascotGenericFormatBuilder) : Option Nat :=
  self.metadata_builder.feature_id

/-- `MascotGenericFormatBuilder::is_start_of_new_entry`. -/
def is_start_of_new_entry (line : String) : Bool := line = "BEGIN IONS"

/-- `MascotGenericFormatBuilder::is_end_of_entry`. -/
def is_end_of_entry (line : String) : Bool := line = "END IONS"

/-- `MascotGenericFormatBuilder::can_build`. -/
def can_build (self : MascotGenericFormatBuilder) : Bool :=
  !self.section_open && !self.is_corrupted && self.metadata_builder.can_build
    && !self.data_builders.isEmpty
    && self.data_builders.all MascotGenericFormatDataBuilder.can_build

/-- `MascotGenericFormatBuilder::can_parse_line`. -/
def can_parse_line (line : String) : Bool :=
  is_start_of_new_entry line || is_end_of_entry line
    || MascotGenericFormatMetadataBuilder.can_parse_line line
    || MascotGenericFormatDataBuilder.can_parse_line line

/-- `MascotGenericFormatBuilder::build`. -/
def build (self : MascotGenericFormatBuilder) : Except Err MascotGenericFormat :=
  if self.is_corrupted then .error .builderCorrupted
  else do
    let metadata ← self.metadata_builder.build
    let data ← self.data_builders.mapM MascotGenericFormatDataBuilder.build
    MascotGenericFormat.new metadata data

/-- `MascotGenericFormatBuilder::digest_line`.  Note that the source
performs no corruption check here: the flag is only ever *set* (by the
error paths below) and consulted by `build` and by the scanners. -/
def digest_line (self : MascotGenericFormatBuilder) (line : String) :
    Except Err Unit × MascotGenericFormatBuilder :=
  if is_start_of_new_entry line then
    (.ok (),
      { self with
        section_open := true
        data_builders := self.data_builders ++ [MascotGenericFormatDataBuilder.default] })
  else if is_end_of_entry line then
    if ¬ self.section_open then
      (.error .endWithoutBegin, { self with corruption := true })
    else
      match self.data_builders.getLast? with
      | none => (.error .panicNoLastBuilder, self) -- `last().unwrap()`: unreachable, Rust panics
      | some lastBuilder =>
        if ¬ lastBuilder.can_build then
          let self1 := { self with corruption := true }
          if self1.has_empty_data_builders then
            (.error (.endNotBuildableEmptyStack self1.metadata_builder.can_build), self1)
          else
            (.error
              (.endNotBuildable self1.metadata_builder.can_build
                (self1.data_builders.all MascotGenericFormatDataBuilder.can_build)),
              self1)
        else
          let self1 := { self with section_open := false }
          if self1.is_level_two && !self1.can_build then
            let self2 := { self1 with corruption := true }
            if self2.data_builders.isEmpty then
              (.error (.endLevelTwoEmptyStack self2.metadata_builder.can_build), self2)
            else
              (.error
                (.endLevelTwoNotBuildable self2.metadata_builder.can_build
                  (self2.data_builders.all MascotGenericFormatDataBuilder.can_build)),
                self2)
          else (.ok (), self1)
  else if MascotGenericFormatMetadataBuilder.can_parse_line line then
    match self.metadata_builder.digest_line line with
    | (.error e, mb1) =>
      (.error e, { self with metadata_builder := mb1, corruption := true })
    | (.ok (), mb1) => (.ok (), { self with metadata_builder := mb1 })
  else
    match self.data_builders.getLast? with
    | some db =>
      (match db.digest_line line with
       | (.error e, db1) =>
         (.error e,
           { self with
             data_builders := self.data_builders.dropLast ++ [db1]
             corruption := true })
       | (.ok (), db1) =>
         (.ok (), { self with data_builders := self.data_builders.dropLast ++ [db1] }))
    | none => (.error (.lineBeforeBegin line), { self with corruption := true })

end MascotGenericFormatBuilder

/-! ## The strict scanner entry point (`MGFVec::try_from_iter`) -/

/-- The loop body of `MGFVec::try_from_iter`: digest each line, aborting
on the first error; when the builder reports `can_build`, build (aborting
on a build error), emit, and restart from a fresh default builder. -/
def tryFromIterGo :
    List String → MascotGenericFormatBuilder → List MascotGenericFormat →
      Except Err (List MascotGenericFormat)
  | [], _, acc => .ok acc
  | line :: rest, builder, acc =>
    match builder.digest_line line with
    | (.error e, _) => .error e
    | (.ok (), b1) =>
      if b1.can_build then
        match b1.build with
        | .error e => .error e
        | .ok mgf => tryFromIterGo rest MascotGenericFormatBuilder.default (acc ++ [mgf])
      else tryFromIterGo rest b1 acc

/-- `MGFVec::try_from_iter` (strict entry point), over an already
blank-line-filtered line sequence. -/
def try_from_iter (lines : List String) : Except Err (List MascotGenericFormat) :=
  tryFromIterGo lines MascotGenericFormatBuilder.default []

/-- Feeding a line sequence to a record builder: digests each line in
order, surfacing the first error (and the builder state at that point). -/
def feed_lines (b : MascotGenericFormatBuilder) :
    List String → Except (Err × MascotGenericFormatBuilder) MascotGenericFormatBuilder
  | [] => .ok b
  | line :: rest =>
    match b.digest_line line with
    | (.error e, b1) => .error (e, b1)
    | (.ok (), b1) => feed_lines b1 rest

/-! ## Prefix-dispatch lemmas (for the universally quantified claim
theorems: which `strip_prefix` branch a `KEY=payload` line selects) -/

theorem hasPre_append (pre l : List Char) : hasPre (pre ++ l) pre = true := by
  induction pre with
  | nil => cases l <;> rfl
  | cons c cs ih => simp [hasPre, ih]

theorem removePre_append (pre l : List Char) : removePre (pre ++ l) pre = some l := by
  induction pre with
  | nil => cases l <;> rfl
  | cons c cs ih => simp [removePre, ih]

/-- Key prefixes disagree at a position covered by both: then no payload
can make one key's line start with the other key. -/
def preMismatch : List Char → List Char → Bool
  | _, [] => false
  | [], _ :: _ => false
  | c :: cs, p :: ps => if c = p then preMismatch cs ps else true

theorem removePre_append_none_of_preMismatch {a b : List Char}
    (h : preMismatch a b = true) (l : List Char) : removePre (a ++ l) b = none := by
  induction b generalizing a with
  | nil => simp [preMismatch] at h
  | cons p ps ih =>
    cases a with
    | nil => simp [preMismatch] at h
    | cons c cs =>
      simp only [preMismatch] at h
      simp only [List.cons_append, removePre]
      by_cases hc : c = p
      · simp only [hc, if_pos rfl] at h ⊢
        exact ih h
      · simp [hc]

theorem hasPre_append_false_of_preMismatch {a b : List Char}
    (h : preMismatch a b = true) (l : List Char) : hasPre (a ++ l) b = false := by
  induction b generalizing a with
  | nil => simp [preMismatch] at h
  | cons p ps ih =>
    cases a with
    | nil => simp [preMismatch] at h
    | cons c cs =>
      simp only [preMismatch] at h
      simp only [List.cons_append, hasPre, Bool.and_eq_false_iff]
      by_cases hc : c = p
      · simp only [hc, if_pos rfl] at h
        exact Or.inr (ih h)
      · exact Or.inl (by simpa using hc)

/-- `is_level_two` answers `Ok(true)` exactly when the level tag is
`Two`. -/
theorem is_level_two_eq_ok_true (b : MascotGenericFormatDataBuilder) :
    b.is_level_two = .ok true ↔ b.level = some .Two := by
  unfold MascotGenericFormatDataBuilder.is_level_two
  split <;> simp_all

/-- The only error `FragmentationSpectraLevel::from_str` produces is its
own parse error — never the ascending-order error. -/
theorem from_str_no_notAscending (line l : String) (cur prev : Frac) :
    ¬ FragmentationSpectraLevel.from_str line = .error (.notAscending l cur prev) := by
  unfold FragmentationSpectraLevel.from_str
  repeat' split
  all_goals simp

/-- The only error `is_level_two` produces is the level-unset error —
never the ascending-order error. -/
theorem is_level_two_no_notAscending (b : MascotGenericFormatDataBuilder)
    (l : String) (cur prev : Frac) :
    ¬ b.is_level_two = .error (.notAscending l cur prev) := by
  unfold MascotGenericFormatDataBuilder.is_level_two
  repeat' split
  all_goals simp

/-- A successfully parsed ion mode is never the `N/A` marker. -/
theorem ionMode_ok_not_nan {s : String} {m : IonMode} (h : IonMode.from_str s = .ok m) :
    IonMode.is_nan_ion_mode_from_str s = false := by
  unfold IonMode.from_str at h
  split at h
  · rename_i hcond
    simp only [Bool.or_eq_true, decide_eq_true_eq] at hcond
    rcases hcond with (hs | hs) | hs <;> subst hs <;> decide
  · split at h
    · rename_i hcond
      simp only [Bool.or_eq_true, decide_eq_true_eq] at hcond
      rcases hcond with (hs | hs) | hs <;> subst hs <;> decide
    · cases h

/-! ## Idempotent-consistency lemmas, one per repeatable scalar field of
the metadata builder: with the field already set, a `KEY=payload` line
carrying the identical value is a no-op `Ok`, a differing value is a
hard error leaving the state unchanged.  (For `PEPMASS`/`RTINSECONDS`
the incoming value is assumed to pass the strict-positivity gate that
runs before the consistency check; the stored value of any
builder-reachable state passed that same gate when it was stored.) -/

theorem digest_feature_id_consistency :
    ∀ (b : MascotGenericFormatMetadataBuilder) (payload : List Char) (n₁ n₂ : Nat),
      parseUsize payload = some n₂ → b.feature_id = some n₁ →
      ((n₁ = n₂ →
        b.digest_line (String.mk ("FEATURE_ID=".data ++ payload)) = (.ok (), b))
      ∧ (n₁ ≠ n₂ →
        b.digest_line (String.mk ("FEATURE_ID=".data ++ payload))
          = (.error (.featureIdMismatch (String.mk ("FEATURE_ID=".data ++ payload))),
             b))) := by
  intro b payload n₁ n₂ hp hset
  have hmk : (String.mk ("FEATURE_ID=".data ++ payload)).data
      = "FEATURE_ID=".data ++ payload := rfl
  have hF : removePre ("FEATURE_ID=".data ++ payload) "FEATURE_ID=".data = some payload :=
    removePre_append _ _
  constructor
  · intro heq
    subst heq
    simp only [MascotGenericFormatMetadataBuilder.digest_line, hmk, hF, hp, hset]
    simp
  · intro hneq
    simp only [MascotGenericFormatMetadataBuilder.digest_line, hmk, hF, hp, hset]
    simp [hneq]

theorem digest_pepmass_consistency :
    ∀ (b : MascotGenericFormatMetadataBuilder) (payload : List Char) (v₁ v₂ : Frac),
      parseFrac payload = some v₂ → v₂.is_strictly_positive = true →
      b.parent_ion_mass = some v₁ →
      ((Frac.beq v₂ v₁ = true →
        b.digest_line (String.mk ("PEPMASS=".data ++ payload)) = (.ok (), b))
      ∧ (Frac.beq v₂ v₁ = false →
        b.digest_line (String.mk ("PEPMASS=".data ++ payload))
          = (.error (.pepmassMismatch (String.mk ("PEPMASS=".data ++ payload))), b))) := by
  intro b payload v₁ v₂ hp hpos hset
  have hmk : (String.mk ("PEPMASS=".data ++ payload)).data
      = "PEPMASS=".data ++ payload := rfl
  have h1 : removePre ("PEPMASS=".data ++ payload) "FEATURE_ID=".data = none :=
    @removePre_append_none_of_preMismatch ("PEPMASS=".data) ("FEATURE_ID=".data)
      (by decide) payload
  have h2 : removePre ("PEPMASS=".data ++ payload) "PEPMASS=".data = some payload :=
    removePre_append _ _
  constructor
  · intro heq
    simp only [MascotGenericFormatMetadataBuilder.digest_line, hmk, h1, h2, hp, hset,
      Frac.is_nan, hpos, heq]
    simp
  · intro hneq
    simp only [MascotGenericFormatMetadataBuilder.digest_line, hmk, h1, h2, hp, hset,
      Frac.is_nan, hpos, hneq]
    simp

theorem digest_charge_consistency :
    ∀ (b : MascotGenericFormatMetadataBuilder) (payload : List Char) (c₁ c₂ : Charge),
      Charge.from_str (String.mk ("CHARGE=".data ++ payload)) = .ok c₂ →
      b.charge = some c₁ →
      ((c₁ = c₂ →
        b.digest_line (String.mk ("CHARGE=".data ++ payload)) = (.ok (), b))
      ∧ (c₁ ≠ c₂ →
        b.digest_line (String.mk ("CHARGE=".data ++ payload))
          = (.error (.chargeMismatch (String.mk ("CHARGE=".data ++ payload))), b))) := by
  intro b payload c₁ c₂ hcs hset
  have hmk : (String.mk ("CHARGE=".data ++ payload)).data = "CHARGE=".data ++ payload := rfl
  have h1 : removePre ("CHARGE=".data ++ payload) "FEATURE_ID=".data = none :=
    @removePre_append_none_of_preMismatch ("CHARGE=".data) ("FEATURE_ID=".data)
      (by decide) payload
  have h2 : removePre ("CHARGE=".data ++ payload) "PEPMASS=".data = none :=
    @removePre_append_none_of_preMismatch ("CHARGE=".data) ("PEPMASS=".data)
      (by decide) payload
  have h3 : removePre ("CHARGE=".data ++ payload) "SCANS=".data = none :=
    @removePre_append_none_of_preMismatch ("CHARGE=".data) ("SCANS=".data)
      (by decide) payload
  have h4 : hasPre ("CHARGE=".data ++ payload) "CHARGE=".data = true :=
    hasPre_append _ _
  constructor
  · intro heq
    subst heq
    simp only [MascotGenericFormatMetadataBuilder.digest_line, hmk, h1, h2, h3, h4,
      hcs, hset]
    simp
  · intro hneq
    simp only [MascotGenericFormatMetadataBuilder.digest_line, hmk, h1, h2, h3, h4,
      hcs, hset]
    simp [hneq]

theorem digest_retention_time_consistency :
    ∀ (b : MascotGenericFormatMetadataBuilder) (payload : List Char) (v₁ v₂ : Frac),
      parseFrac payload = some v₂ → v₂.is_strictly_positive = true →
      b.retention_time = some v₁ →
      ((Frac.beq v₁ v₂ = true →
        b.digest_line (String.mk ("RTINSECONDS=".data ++ payload)) = (.ok (), b))
      ∧ (Frac.beq v₁ v₂ = false →
        b.digest_line (String.mk ("RTINSECONDS=".data ++ payload))
          = (.error (.rtMismatch (String.mk ("RTINSECONDS=".data ++ payload))), b))) := by
  intro b payload v₁ v₂ hp hpos hset
  have hmk : (String.mk ("RTINSECONDS=".data ++ payload)).data
      = "RTINSECONDS=".data ++ payload := rfl
  have h1 : removePre ("RTINSECONDS=".data ++ payload) "FEATURE_ID=".data = none :=
    @removePre_append_none_of_preMismatch ("RTINSECONDS=".data) ("FEATURE_ID=".data)
      (by decide) payload
  have h2 : removePre ("RTINSECONDS=".data ++ payload) "PEPMASS=".data = none :=
    @removePre_append_none_of_preMismatch ("RTINSECONDS=".data) ("PEPMASS=".data)
      (by decide) payload
  have h3 : removePre ("RTINSECONDS=".data ++ payload) "SCANS=".data = none :=
    @removePre_append_none_of_preMismatch ("RTINSECONDS=".data) ("SCANS=".data)
      (by decide) payload
  have h4 : hasPre ("RTINSECONDS=".data ++ payload) "CHARGE=".data = false :=
    @hasPre_append_false_of_preMismatch ("RTINSECONDS=".data) ("CHARGE=".data)
      (by decide) payload
  have h5 : removePre ("RTINSECONDS=".data ++ payload) "IONMODE=".data = none :=
    @removePre_append_none_of_preMismatch ("RTINSECONDS=".data) ("IONMODE=".data)
      (by decide) payload
  have h6 : removePre ("RTINSECONDS=".data ++ payload) "SEQ=".data = none :=
    @removePre_append_none_of_preMismatch ("RTINSECONDS=".data) ("SEQ=".data)
      (by decide) payload
  have h7 : removePre ("RTINSECONDS=".data ++ payload) "SOURCE_INSTRUMENT=".data = none :=
    @removePre_append_none_of_preMismatch ("RTINSECONDS=".data) ("SOURCE_INSTRUMENT=".data)
      (by decide) payload
  have h8 : removePre ("RTINSECONDS=".data ++ payload) "RTINSECONDS=".data = some payload :=
    removePre_append _ _
  constructor
  · intro heq
    simp only [MascotGenericFormatMetadataBuilder.digest_line, hmk, h1, h2, h3, h4, h5,
      h6, h7, h8, hp, hset, Frac.is_nan, hpos, heq]
    simp
  · intro hneq
    simp only [MascotGenericFormatMetadataBuilder.digest_line, hmk, h1, h2, h3, h4, h5,
      h6, h7, h8, hp, hset, Frac.is_nan, hpos, hneq]
    simp

theorem digest_ion_mode_consistency :
    ∀ (b : MascotGenericFormatMetadataBuilder) (payload : List Char) (m₁ m₂ : IonMode),
      IonMode.from_str (String.mk payload) = .ok m₂ →
      b.ion_mode = some m₁ →
      ((m₁ = m₂ →
        b.digest_line (String.mk ("IONMODE=".data ++ payload)) = (.ok (), b))
      ∧ (m₁ ≠ m₂ →
        b.digest_line (String.mk ("IONMODE=".data ++ payload))
          = (.error (.ionModeMismatch (String.mk ("IONMODE=".data ++ payload))), b))) := by
  intro b payload m₁ m₂ hms hset
  have hmk : (String.mk ("IONMODE=".data ++ payload)).data
      = "IONMODE=".data ++ payload := rfl
  have h1 : removePre ("IONMODE=".data ++ payload) "FEATURE_ID=".data = none :=
    @removePre_append_none_of_preMismatch ("IONMODE=".data) ("FEATURE_ID=".data)
      (by decide) payload
  have h2 : removePre ("IONMODE=".data ++ payload) "PEPMASS=".data = none :=
    @removePre_append_none_of_preMismatch ("IONMODE=".data) ("PEPMASS=".data)
      (by decide) payload
  have h3 : removePre ("IONMODE=".data ++ payload) "SCANS=".data = none :=
    @removePre_append_none_of_preMismatch ("IONMODE=".data) ("SCANS=".data)
      (by decide) payload
  have h4 : hasPre ("IONMODE=".data ++ payload) "CHARGE=".data = false :=
    @hasPre_append_false_of_preMismatch ("IONMODE=".data) ("CHARGE=".data)
      (by decide) payload
  have h5 : removePre ("IONMODE=".data ++ payload) "IONMODE=".data = some payload :=
    removePre_append _ _
  have hnan := ionMode_ok_not_nan hms
  constructor
  · intro heq
    subst heq
    simp only [MascotGenericFormatMetadataBuilder.digest_line, hmk, h1, h2, h3, h4, h5,
      hnan, hms, hset]
    simp only [Bool.false_eq_true, if_false, ne_eq, not_true_eq_false, if_neg,
      reduceIte]
    rw [show ({ b with ion_mode := some m₁ } : MascotGenericFormatMetadataBuilder) = b by
      rw [← hset]]
  · intro hneq
    simp only [MascotGenericFormatMetadataBuilder.digest_line, hmk, h1, h2, h3, h4, h5,
      hnan, hms, hset]
    simp [hneq]

theorem digest_sequence_consistency :
    ∀ (b : MascotGenericFormatMetadataBuilder) (payload : List Char) (s₁ : String),
      b.sequence = some s₁ →
      ((s₁ = String.mk payload →
        b.digest_line (String.mk ("SEQ=".data ++ payload)) = (.ok (), b))
      ∧ (s₁ ≠ String.mk payload →
        b.digest_line (String.mk ("SEQ=".data ++ payload))
          = (.error (.seqMismatch (String.mk ("SEQ=".data ++ payload))), b))) := by
  intro b payload s₁ hset
  have hmk : (String.mk ("SEQ=".data ++ payload)).data = "SEQ=".data ++ payload := rfl
  have h1 : removePre ("SEQ=".data ++ payload) "FEATURE_ID=".data = none :=
    @removePre_append_none_of_preMismatch ("SEQ=".data) ("FEATURE_ID=".data)
      (by decide) payload
  have h2 : removePre ("SEQ=".data ++ payload) "PEPMASS=".data = none :=
    @removePre_append_none_of_preMismatch ("SEQ=".data) ("PEPMASS=".data)
      (by decide) payload
  have h3 : removePre ("SEQ=".data ++ payload) "SCANS=".data = none :=
    @removePre_append_none_of_preMismatch ("SEQ=".data) ("SCANS=".data)
      (by decide) payload
  have h4 : hasPre ("SEQ=".data ++ payload) "CHARGE=".data = false :=
    @hasPre_append_false_of_preMismatch ("SEQ=".data) ("CHARGE=".data)
      (by decide) payload
  have h5 : removePre ("SEQ=".data ++ payload) "IONMODE=".data = none :=
    @removePre_append_none_of_preMismatch ("SEQ=".data) ("IONMODE=".data)
      (by decide) payload
  have h6 : removePre ("SEQ=".data ++ payload) "SEQ=".data = some payload :=
    removePre_append _ _
  constructor
  · intro heq
    simp only [MascotGenericFormatMetadataBuilder.digest_line, hmk, h1, h2, h3, h4, h5,
      h6, hset, heq]
    simp
  · intro hneq
    simp only [MascotGenericFormatMetadataBuilder.digest_line, hmk, h1, h2, h3, h4, h5,
      h6, hset]
    simp [hneq]

theorem digest_source_instrument_consistency :
    ∀ (b : MascotGenericFormatMetadataBuilder) (payload : List Char) (s₁ : String),
      b.source_instrument = some s₁ →
      ((s₁ = String.mk payload →
        b.digest_line (String.mk ("SOURCE_INSTRUMENT=".data ++ payload)) = (.ok (), b))
      ∧ (s₁ ≠ String.mk payload →
        b.digest_line (String.mk ("SOURCE_INSTRUMENT=".data ++ payload))
          = (.error
              (.sourceInstrumentMismatch (String.mk ("SOURCE_INSTRUMENT=".data ++ payload))),
             b))) := by
  intro b payload s₁ hset
  have hmk : (String.mk ("SOURCE_INSTRUMENT=".data ++ payload)).data
      = "SOURCE_INSTRUMENT=".data ++ payload := rfl
  have h1 : removePre ("SOURCE_INSTRUMENT=".data ++ payload) "FEATURE_ID=".data = none :=
    @removePre_append_none_of_preMismatch ("SOURCE_INSTRUMENT=".data) ("FEATURE_ID=".data)
      (by decide) payload
  have h2 : removePre ("SOURCE_INSTRUMENT=".data ++ payload) "PEPMASS=".data = none :=
    @removePre_append_none_of_preMismatch ("SOURCE_INSTRUMENT=".data) ("PEPMASS=".data)
      (by decide) payload
  have h3 : removePre ("SOURCE_INSTRUMENT=".data ++ payload) "SCANS=".data = none :=
    @removePre_append_none_of_preMismatch ("SOURCE_INSTRUMENT=".data) ("SCANS=".data)
      (by decide) payload
  have h4 : hasPre ("SOURCE_INSTRUMENT=".data ++ payload) "CHARGE=".data = false :=
    @hasPre_append_false_of_preMismatch ("SOURCE_INSTRUMENT=".data) ("CHARGE=".data)
      (by decide) payload
  have h5 : removePre ("SOURCE_INSTRUMENT=".data ++ payload) "IONMODE=".data = none :=
    @removePre_append_none_of_preMismatch ("SOURCE_INSTRUMENT=".data) ("IONMODE=".data)
      (by decide) payload
  have h6 : removePre ("SOURCE_INSTRUMENT=".data ++ payload) "SEQ=".data = none :=
    @removePre_append_none_of_preMismatch ("SOURCE_INSTRUMENT=".data) ("SEQ=".data)
      (by decide) payload
  have h7 : removePre ("SOURCE_INSTRUMENT=".data ++ payload) "SOURCE_INSTRUMENT=".data
      = some payload := removePre_append _ _
  constructor
  · intro heq
    simp only [MascotGenericFormatMetadataBuilder.digest_line, hmk, h1, h2, h3, h4, h5,
      h6, h7, hset, heq]
    simp
  · intro hneq
    simp only [MascotGenericFormatMetadataBuilder.digest_line, hmk, h1, h2, h3, h4, h5,
      h6, h7, hset]
    simp [hneq]

theorem digest_organism_consistency :
    ∀ (b : MascotGenericFormatMetadataBuilder) (payload : List Char) (s₁ : String),
      b.organism = some s₁ →
      ((s₁ = String.mk payload →
        b.digest_line (String.mk ("ORGANISM=".data ++ payload)) = (.ok (), b))
      ∧ (s₁ ≠ String.mk payload →
        b.digest_line (String.mk ("ORGANISM=".data ++ payload))
          = (.error (.organismMismatch (String.mk ("ORGANISM=".data ++ payload))), b))) := by
  intro b payload s₁ hset
  have hmk : (String.mk ("ORGANISM=".data ++ payload)).data
      = "ORGANISM=".data ++ payload := rfl
  have h1 : removePre ("ORGANISM=".data ++ payload) "FEATURE_ID=".data = none :=
    @removePre_append_none_of_preMismatch ("ORGANISM=".data) ("FEATURE_ID=".data)
      (by decide) payload
  have h2 : removePre ("ORGANISM=".data ++ payload) "PEPMASS=".data = none :=
    @removePre_append_none_of_preMismatch ("ORGANISM=".data) ("PEPMASS=".data)
      (by decide) payload
  have h3 : removePre ("ORGANISM=".data ++ payload) "SCANS=".data = none :=
    @removePre_append_none_of_preMismatch ("ORGANISM=".data) ("SCANS=".data)
      (by decide) payload
  have h4 : hasPre ("ORGANISM=".data ++ payload) "CHARGE=".data = false :=
    @hasPre_append_false_of_preMismatch ("ORGANISM=".data) ("CHARGE=".data)
      (by decide) payload
  have h5 : removePre ("ORGANISM=".data ++ payload) "IONMODE=".data = none :=
    @removePre_append_none_of_preMismatch ("ORGANISM=".data) ("IONMODE=".data)
      (by decide) payload
  have h6 : removePre ("ORGANISM=".data ++ payload) "SEQ=".data = none :=
    @removePre_append_none_of_preMismatch ("ORGANISM=".data) ("SEQ=".data)
      (by decide) payload
  have h7 : removePre ("ORGANISM=".data ++ payload) "SOURCE_INSTRUMENT=".data = none :=
    @removePre_append_none_of_preMismatch ("ORGANISM=".data) ("SOURCE_INSTRUMENT=".data)
      (by decide) payload
  have h8 : removePre ("ORGANISM=".data ++ payload) "RTINSECONDS=".data = none :=
    @removePre_append_none_of_preMismatch ("ORGANISM=".data) ("RTINSECONDS=".data)
      (by decide) payload
  have h9 : removePre ("ORGANISM=".data ++ payload) "ORGANISM=".data = some payload :=
    removePre_append _ _
  constructor
  · intro heq
    simp only [MascotGenericFormatMetadataBuilder.digest_line, hmk, h1, h2, h3, h4, h5,
      h6, h7, h8, h9, hset, heq]
    simp
  · intro hneq
    simp only [MascotGenericFormatMetadataBuilder.digest_line, hmk, h1, h2, h3, h4, h5,
      h6, h7, h8, h9, hset]
    simp [hneq]

/-! ## Concrete inputs used by the claim theorems -/

/-- Modelled from the spec: the documented *output contract* of
`find_sorted_matches` — the pairs `(i, j)` of absolute indices into the
two sequences with `first[i] - ε ≤ second[j] + δ ≤ first[i] + ε` — for
comparison against the implementation. -/
def specSortedMatches (first second : List Frac) (tolerance shift : Frac) :
    List (Nat × Nat) :=
  first.enum.flatMap fun p =>
    second.enum.filterMap fun q =>
      if Frac.ble (p.2.sub tolerance) (q.2.add shift)
          && Frac.ble (q.2.add shift) (p.2.add tolerance) then some (p.1, q.1)
      else none

/-- Metadata for the hand-assembled level-Two-only records below (any
valid metadata works: the matcher reads only the level-Two masses). -/
def c1Metadata : MascotGenericFormatMetadata :=
  { feature_id := 1
    parent_ion_mass := some ⟨500, 1⟩
    retention_time := some ⟨1, 1⟩
    charge := .One
    ion_mode := none
    sequence := none
    source_instrument := none
    organism := none
    name := none
    smiles := none
    merged_scans_metadata := none }

/-- A record holding a single level-Two spectrum with the given (sorted
ascending) mass/charge ratios and unit intensities. -/
def c1RecordOf (mzs : List Frac) : MascotGenericFormat :=
  { metadata := c1Metadata
    data := [⟨.Two, mzs, mzs.map fun _ => ⟨1, 1⟩⟩] }

/-- First sequence `[100.0, 200.0, 300.0]` of the spec's worked
example. -/
def c1ExampleFirst : List Frac := [⟨1000, 10⟩, ⟨2000, 10⟩, ⟨3000, 10⟩]

/-- Second sequence `[100.05, 199.9, 305.0]` of the spec's worked
example. -/
def c1ExampleSecond : List Frac := [⟨10005, 100⟩, ⟨19990, 100⟩, ⟨30500, 100⟩]

/-- First sequence `[100.0, 300.0]` of the failing input. -/
def c1FailFirst : List Frac := [⟨100, 1⟩, ⟨300, 1⟩]

/-- Second sequence `[50.0, 60.0, 300.0]` of the failing input. -/
def c1FailSecond : List Frac := [⟨50, 1⟩, ⟨60, 1⟩, ⟨300, 1⟩]

/-- Tolerance `0.2`. -/
def c1Tolerance : Frac := ⟨2, 10⟩

/-- Shift `0.0`. -/
def c1Shift : Frac := ⟨0, 1⟩

/-- The C2 line sequence exactly as the claim lists it
(`PEPMASS=381.0795`). -/
def c2Lines : List String :=
  ["BEGIN IONS", "FEATURE_ID=1", "PEPMASS=381.0795", "SCANS=1", "CHARGE=1",
   "RTINSECONDS=37.083", "MSLEVEL=1", "60.5425 2.4E5", "119.0857 3.3E5", "END IONS"]

/-- The same record with `PEPMASS=60.5425`, the level-One minimum — a
record the strict constructor accepts. -/
def validRecordLines : List String :=
  ["BEGIN IONS", "FEATURE_ID=1", "PEPMASS=60.5425", "SCANS=1", "CHARGE=1",
   "RTINSECONDS=37.083", "MSLEVEL=1", "60.5425 2.4E5", "119.0857 3.3E5", "END IONS"]

/-- The record builder state after feeding `c2Lines`. -/
def c2Builder : MascotGenericFormatBuilder :=
  c2Lines.foldl (fun b l => (b.digest_line l).2) MascotGenericFormatBuilder.default

/-- The record builder state after feeding `validRecordLines`. -/
def validRecordBuilder : MascotGenericFormatBuilder :=
  validRecordLines.foldl (fun b l => (b.digest_line l).2) MascotGenericFormatBuilder.default

/-- A record builder corrupted by an orphan `END IONS` line. -/
def c3Corrupt : MascotGenericFormatBuilder :=
  (MascotGenericFormatBuilder.default.digest_line "END IONS").2

/-- A spectrum level builder whose level tag is already set to One. -/
def c5LevelOne : MascotGenericFormatDataBuilder :=
  (MascotGenericFormatDataBuilder.default.digest_line "MSLEVEL=1").2

/-- A level-Two spectrum builder holding the single peak `10.0 5.0`. -/
def c7TwoState : MascotGenericFormatDataBuilder :=
  ((MascotGenericFormatDataBuilder.default.digest_line "MSLEVEL=2").2.digest_line
    "10.0 5.0").2

/-- A level-One spectrum builder holding the single peak `10.0 5.0`. -/
def c7OneState : MascotGenericFormatDataBuilder :=
  ((MascotGenericFormatDataBuilder.default.digest_line "MSLEVEL=1").2.digest_line
    "10.0 5.0").2

/-- Merged-scans builder state after `MERGED_SCANS=1567,1540`. -/
def c9AfterScans : MergeScansMetadataBuilder :=
  (MergeScansMetadataBuilder.default.digest_line "MERGED_SCANS=1567,1540").2

/-- Metadata builder state after `FEATURE_ID=1`. -/
def c8AfterFid1 : MascotGenericFormatMetadataBuilder :=
  (MascotGenericFormatMetadataBuilder.default.digest_line "FEATURE_ID=1").2

/-- Metadata builder state after `FEATURE_ID=1` (for the C6 witness). -/
def c6AfterFid1 : MascotGenericFormatMetadataBuilder :=
  (MascotGenericFormatMetadataBuilder.default.digest_line "FEATURE_ID=1").2

/-! ## Claim theorems -/

/-- C1: the output contract of `find_sorted_matches` — that it returns
exactly the absolute index pairs `(i, j)` with
`first[i] - ε ≤ second[j] + δ ≤ first[i] + ε` — is broken by the
implementation: because the source enumerates the second sequence *after*
`skip(lowest_index)`, the reported `j` (and the updated cursor) are
offsets relative to the skipped prefix.  At first sequence
`[100.0, 300.0]`, second `[50.0, 60.0, 300.0]`, `ε = 0.2`, `δ = 0.0`, the
code returns `[(1, 1)]` while the contract (and the spec's two-pointer
description) requires `[(1, 2)]`.  The spec's own worked example is
unaffected (its cursor stays `0`): there the code returns exactly
`[(0, 0), (1, 1)]`, agreeing with the contract. -/
theorem C1_find_sorted_matches_relative_index_bug :
    (c1RecordOf c1FailFirst).find_sorted_matches (c1RecordOf c1FailSecond)
        c1Tolerance c1Shift = .ok [(1, 1)]
    ∧ specSortedMatches c1FailFirst c1FailSecond c1Tolerance c1Shift = [(1, 2)]
    ∧ (c1RecordOf c1ExampleFirst).find_sorted_matches (c1RecordOf c1ExampleSecond)
        c1Tolerance c1Shift = .ok [(0, 0), (1, 1)]
    ∧ specSortedMatches c1ExampleFirst c1ExampleSecond c1Tolerance c1Shift
        = [(0, 0), (1, 1)] :=
  ⟨rfl, rfl, rfl, rfl⟩

/-- C2 fails as stated: feeding the listed ten lines (with
`PEPMASS=381.0795`) to a fresh record builder digests cleanly and makes
`can_build()` true, but `build()` does *not* succeed — the parent ion
mass cross-check rejects `381.0795`, which is not among the level-One
masses `[60.5425, 119.0857]`. -/
theorem C2_record_build_counterexample :
    feed_lines MascotGenericFormatBuilder.default c2Lines = .ok c2Builder
    ∧ c2Builder.can_build = true
    ∧ c2Builder.build = .error (.parentMassNotInFirstLevel ⟨3810795, 10000⟩) :=
  ⟨rfl, rfl, rfl⟩

/-- C2 amended: the ten lines digest cleanly and make `can_build()`
true, but `build()` fails with the cross-check error because `381.0795`
equals none of the level-One masses; with `PEPMASS=60.5425` (the
level-One minimum) instead, `build()` succeeds and the record's parent
ion mass equals `60.5425`. -/
theorem C2_record_build_amended :
    (c2Builder.can_build = true
      ∧ c2Builder.build = .error (.parentMassNotInFirstLevel ⟨3810795, 10000⟩))
    ∧ (feed_lines MascotGenericFormatBuilder.default validRecordLines
          = .ok validRecordBuilder
        ∧ validRecordBuilder.can_build = true
        ∧ validRecordBuilder.build.map MascotGenericFormat.parent_ion_mass
            = .ok (some ⟨605425, 10000⟩)) :=
  ⟨⟨rfl, rfl⟩, rfl, rfl, rfl⟩

/-- C4 fails as stated: a document consisting of two copies of the same
valid record (both `FEATURE_ID=1`) makes `try_from_iter` return the
two-record set — with the duplicate feature identifier — rather than any
aggregate duplicate error. -/
theorem C4_duplicate_feature_ids_counterexample :
    (try_from_iter (validRecordLines ++ validRecordLines)).map
        (fun rs => rs.map MascotGenericFormat.feature_id) = .ok [1, 1] :=
  rfl

/-- C4 amended: `try_from_iter` performs no cross-record
duplicate-feature-id check at all; on an input whose records all parse
and build but share a feature identifier it returns the full record set
(here: two records, both with feature id 1), surfacing only per-line
digest errors and per-record build errors. -/
theorem C4_duplicate_feature_ids_amended :
    (try_from_iter (validRecordLines ++ validRecordLines)).map List.length = .ok 2
    ∧ (try_from_iter (validRecordLines ++ validRecordLines)).map
        (fun rs => rs.map MascotGenericFormat.feature_id) = .ok [1, 1]
    ∧ (try_from_iter validRecordLines).map
        (fun rs => rs.map MascotGenericFormat.feature_id) = .ok [1] :=
  ⟨rfl, rfl, rfl⟩

/-- C9: after `MERGED_SCANS=1567,1540`, the stats line
`MERGED_STATS=2 / 2 (0 removed due to low quality, 0 removed due to low
cosine).` digests successfully and `build()` yields merged-scans
metadata with scans `[1567, 1540]` and both removal counts `0`; the same
line with the total changed to `3` is rejected by the inline
`merged + removed == total` check. -/
theorem C9_merged_stats_arithmetic :
    (MergeScansMetadataBuilder.default.digest_line "MERGED_SCANS=1567,1540").1 = .ok ()
    ∧ c9AfterScans.scans = [1567, 1540]
    ∧ (c9AfterScans.digest_line
        "MERGED_STATS=2 / 2 (0 removed due to low quality, 0 removed due to low cosine).").1
        = .ok ()
    ∧ (c9AfterScans.digest_line
        "MERGED_STATS=2 / 2 (0 removed due to low quality, 0 removed due to low cosine).").2.build
        = .ok ⟨[1567, 1540], 0, 0⟩
    ∧ (c9AfterScans.digest_line
        "MERGED_STATS=2 / 3 (0 removed due to low quality, 0 removed due to low cosine).")
        = (.error (.mergedStatsSumMismatch
            "2 / 3 (0 removed due to low quality, 0 removed due to low cosine)."),
           c9AfterScans) :=
  ⟨rfl, rfl, rfl, rfl, rfl⟩

/-- C3 fails as stated: a record builder corrupted by an orphan
`END IONS` reports `is_corrupted()`, yet further `digest_line` calls are
*not* rejected — both `BEGIN IONS` and a metadata line are accepted with
`Ok`. -/
theorem C3_sticky_corruption_counterexample :
    c3Corrupt.is_corrupted = true
    ∧ (c3Corrupt.digest_line "BEGIN IONS").1 = .ok ()
    ∧ (c3Corrupt.digest_line "FEATURE_ID=7").1 = .ok () :=
  ⟨rfl, rfl, rfl⟩

/-- C5 fails as stated: with the level tag already `One`, a second,
differing `MSLEVEL=2` line is *accepted* and overwrites the stored tag
with `Two` — no error, no unchanged state. -/
theorem C5_mslevel_counterexample :
    c5LevelOne.level = some .One
    ∧ (c5LevelOne.digest_line "MSLEVEL=2").1 = .ok ()
    ∧ (c5LevelOne.digest_line "MSLEVEL=2").2.level = some .Two :=
  ⟨rfl, rfl, rfl⟩

/-- C6 fails as stated: in the state where no feature id has been
observed yet, `SCANS=5` does not error — it succeeds and *adopts* `5` as
the feature id. -/
theorem C6_scans_counterexample :
    MascotGenericFormatMetadataBuilder.default.feature_id = none
    ∧ (MascotGenericFormatMetadataBuilder.default.digest_line "SCANS=5").1 = .ok ()
    ∧ (MascotGenericFormatMetadataBuilder.default.digest_line "SCANS=5").2.feature_id
        = some 5 :=
  ⟨rfl, rfl, rfl⟩

/-- C3 amended: corruption is sticky *as state* — no `digest_line` call
ever clears the flag (it stays set until the Scanner replaces the
builder), and `build()` on a corrupted builder is rejected — but
`digest_line` itself performs no corruption check and does not reject
further lines; the skipping of lines after corruption is done by the
Scanner, which consults `is_corrupted()` externally. -/
theorem C3_sticky_corruption_amended :
    ∀ (b : MascotGenericFormatBuilder) (line : String) (r : Except Err Unit)
      (b' : MascotGenericFormatBuilder),
      b.is_corrupted = true → b.digest_line line = (r, b') →
      b'.is_corrupted = true ∧ b.build = .error .builderCorrupted := by
  intro b line r b' hc hd
  constructor
  · unfold MascotGenericFormatBuilder.digest_line at hd
    dsimp only at hd
    simp only [MascotGenericFormatBuilder.is_corrupted] at hc ⊢
    split at hd
    · cases hd; simpa using hc
    · split at hd
      · split at hd
        · cases hd; rfl
        · split at hd
          · cases hd; simpa using hc
          · split at hd
            · split at hd
              · cases hd; rfl
              · cases hd; rfl
            · split at hd
              · split at hd
                · cases hd; rfl
                · cases hd; rfl
              · cases hd; simpa using hc
      · split at hd
        · split at hd
          · cases hd; rfl
          · cases hd; simpa using hc
        · split at hd
          · split at hd
            · cases hd; rfl
            · cases hd; simpa using hc
          · cases hd; rfl
  · simp [MascotGenericFormatBuilder.build, hc]

/-- C3 amended, witnessed at the orphan-`END IONS` builder digesting
`BEGIN IONS`. -/
theorem C3_sticky_corruption_amended_witness :
    (c3Corrupt.digest_line "BEGIN IONS").2.is_corrupted = true
    ∧ c3Corrupt.build = .error .builderCorrupted :=
  C3_sticky_corruption_amended c3Corrupt "BEGIN IONS"
    (c3Corrupt.digest_line "BEGIN IONS").1 (c3Corrupt.digest_line "BEGIN IONS").2
    rfl rfl

/-- C5 amended: an `MSLEVEL` line that parses *always* succeeds and
*overwrites* the stored level tag (there is no set-once check), and the
parseable values are exactly `MSLEVEL=1` and `MSLEVEL=2`. -/
theorem C5_mslevel_amended :
    ∀ (b : MascotGenericFormatDataBuilder) (line : String)
      (lvl : FragmentationSpectraLevel),
      FragmentationSpectraLevel.from_str line = .ok lvl →
      b.digest_line line = (.ok (), { b with level := some lvl })
      ∧ ((line = "MSLEVEL=1" ∧ lvl = .One) ∨ (line = "MSLEVEL=2" ∧ lvl = .Two)) := by
  intro b line lvl h
  have hcases : (line = "MSLEVEL=1" ∧ lvl = .One) ∨ (line = "MSLEVEL=2" ∧ lvl = .Two) := by
    unfold FragmentationSpectraLevel.from_str at h
    split at h
    · cases h; exact Or.inl ⟨by assumption, rfl⟩
    · split at h
      · cases h; exact Or.inr ⟨by assumption, rfl⟩
      · cases h
  refine ⟨?_, hcases⟩
  rcases hcases with ⟨hl, hv⟩ | ⟨hl, hv⟩ <;> subst hl <;> subst hv <;> rfl

/-- C5 amended, witnessed: `MSLEVEL=2` on a builder whose tag is `One`
succeeds and replaces the tag. -/
theorem C5_mslevel_amended_witness :
    c5LevelOne.digest_line "MSLEVEL=2" = (.ok (), { c5LevelOne with level := some .Two })
    ∧ (("MSLEVEL=2" = "MSLEVEL=1" ∧ FragmentationSpectraLevel.Two = .One)
        ∨ ("MSLEVEL=2" = "MSLEVEL=2" ∧ FragmentationSpectraLevel.Two = .Two)) :=
  C5_mslevel_amended c5LevelOne "MSLEVEL=2" .Two rfl

/-- C7: the ascending-order rejection happens exactly under a known
level-Two tag.  Concretely, the descending pair `10.0 5.0`, `9.0 5.0`
under `MSLEVEL=2` fails with the ascending-order error (leaving the
builder untouched), the same two lines under `MSLEVEL=1` succeed; and in
general *every* ascending-order rejection arises from a state whose
level tag is `Two`, whose last accepted mass/charge ratio exceeds the
incoming one. -/
theorem C7_ordering_checked_only_at_level_two :
    c7TwoState.digest_line "9.0 5.0"
        = (.error (.notAscending "9.0 5.0" ⟨90, 10⟩ ⟨100, 10⟩), c7TwoState)
    ∧ (c7OneState.digest_line "9.0 5.0").1 = .ok ()
    ∧ (c7OneState.digest_line "9.0 5.0").2.mass_divided_by_charge_ratios
        = [⟨100, 10⟩, ⟨90, 10⟩]
    ∧ ∀ (b : MascotGenericFormatDataBuilder) (line l : String) (cur prev : Frac)
        (b' : MascotGenericFormatDataBuilder),
        b.digest_line line = (.error (.notAscending l cur prev), b') →
        b.level = some .Two
        ∧ b.mass_divided_by_charge_ratios.getLast? = some prev
        ∧ Frac.bgt prev cur = true := by
  refine ⟨rfl, rfl, rfl, ?_⟩
  intro b line l cur prev b' hd
  unfold MascotGenericFormatDataBuilder.digest_line at hd
  dsimp only at hd
  repeat' split at hd
  all_goals cases hd
  all_goals
    simp_all [is_level_two_eq_ok_true, from_str_no_notAscending,
      is_level_two_no_notAscending]

/-- C7, witnessed at the concrete level-Two descending rejection. -/
theorem C7_ordering_checked_only_at_level_two_witness :
    c7TwoState.level = some .Two
    ∧ c7TwoState.mass_divided_by_charge_ratios.getLast? = some ⟨100, 10⟩
    ∧ Frac.bgt (⟨100, 10⟩ : Frac) ⟨90, 10⟩ = true :=
  C7_ordering_checked_only_at_level_two.2.2.2 c7TwoState "9.0 5.0" "9.0 5.0"
    ⟨90, 10⟩ ⟨100, 10⟩ c7TwoState rfl

/-- C10: the spectrum level builder's `digest_line` is atomic on
failure — every erroring call leaves the builder exactly as it was — and
in every call the two peak lists keep equal lengths (they are only ever
pushed to together). -/
theorem C10_data_digest_atomicity :
    (∀ (b : MascotGenericFormatDataBuilder) (line : String) (e : Err)
        (b' : MascotGenericFormatDataBuilder),
      b.digest_line line = (.error e, b') → b' = b)
    ∧ (∀ (b : MascotGenericFormatDataBuilder) (line : String) (r : Except Err Unit)
        (b' : MascotGenericFormatDataBuilder),
      b.digest_line line = (r, b') →
      b.mass_divided_by_charge_ratios.length = b.fragment_intensities.length →
      b'.mass_divided_by_charge_ratios.length = b'.fragment_intensities.length) := by
  constructor
  · intro b line e b' hd
    unfold MascotGenericFormatDataBuilder.digest_line at hd
    dsimp only at hd
    repeat' split at hd
    all_goals simp_all
  · intro b line r b' hd hlen
    unfold MascotGenericFormatDataBuilder.digest_line at hd
    dsimp only at hd
    repeat' split at hd
    all_goals cases hd
    all_goals simp_all [List.length_append]
    all_goals exact List.eq_nil_of_length_eq_zero hlen.symm

/-- C6 amended: for `SCANS=n` with `n` a parseable unsigned integer
(hence not `-1`), digestion first clears the `minus_one_scans` flag and
then succeeds iff *either* no feature id has been observed yet — in
which case `n` is adopted as the feature id — or `n` equals the observed
feature id; only an observed, differing feature id produces the
mismatch error. -/
theorem C6_scans_amended :
    ∀ (b : MascotGenericFormatMetadataBuilder) (payload : List Char) (n : Nat),
      parseUsize payload = some n →
      ((b.feature_id = none →
         b.digest_line (String.mk ("SCANS=".data ++ payload))
           = (.ok (), { b with minus_one_scans := false, feature_id := some n }))
       ∧ ∀ fid, b.feature_id = some fid →
           ((n = fid →
             b.digest_line (String.mk ("SCANS=".data ++ payload))
               = (.ok (), { b with minus_one_scans := false }))
           ∧ (n ≠ fid →
             b.digest_line (String.mk ("SCANS=".data ++ payload))
               = (.error (.scansMismatch (String.mk ("SCANS=".data ++ payload))),
                  { b with minus_one_scans := false })))) := by
  intro b payload n hp
  have hmk : (String.mk ("SCANS=".data ++ payload)).data = "SCANS=".data ++ payload := rfl
  have h1 : removePre ("SCANS=".data ++ payload) "FEATURE_ID=".data = none :=
    @removePre_append_none_of_preMismatch ("SCANS=".data) ("FEATURE_ID=".data)
      (by decide) payload
  have h2 : removePre ("SCANS=".data ++ payload) "PEPMASS=".data = none :=
    @removePre_append_none_of_preMismatch ("SCANS=".data) ("PEPMASS=".data)
      (by decide) payload
  have h3 : removePre ("SCANS=".data ++ payload) "SCANS=".data = some payload :=
    removePre_append _ _
  have hne : ¬ (payload = "-1".data) := by
    intro he
    rw [he] at hp
    rw [show parseUsize ("-1".data) = none from rfl] at hp
    exact Option.noConfusion hp
  constructor
  · intro h0
    simp only [MascotGenericFormatMetadataBuilder.digest_line, hmk, h1, h2, h3,
      if_neg hne, hp, h0]
  · intro fid hfid
    constructor
    · intro heq
      simp only [MascotGenericFormatMetadataBuilder.digest_line, hmk, h1, h2, h3,
        if_neg hne, hp, hfid, heq]
      simp
    · intro hneq
      simp only [MascotGenericFormatMetadataBuilder.digest_line, hmk, h1, h2, h3,
        if_neg hne, hp, hfid]
      simp [hneq]

/-- C6 amended, witnessed: a fresh builder adopts `SCANS=5` as feature
id, and after `FEATURE_ID=1` the line `SCANS=5` is rejected. -/
theorem C6_scans_amended_witness :
    MascotGenericFormatMetadataBuilder.default.digest_line
        (String.mk ("SCANS=".data ++ "5".data))
      = (.ok (),
         { MascotGenericFormatMetadataBuilder.default with
           minus_one_scans := false
           feature_id := some 5 })
    ∧ c6AfterFid1.digest_line (String.mk ("SCANS=".data ++ "5".data))
      = (.error (.scansMismatch (String.mk ("SCANS=".data ++ "5".data))),
         { c6AfterFid1 with minus_one_scans := false }) :=
  ⟨(C6_scans_amended MascotGenericFormatMetadataBuilder.default "5".data 5 rfl).1 rfl,
    ((C6_scans_amended c6AfterFid1 "5".data 5 rfl).2 1 rfl).2 (by decide)⟩

/-- C8: every repeatable scalar metadata field (FEATURE_ID, PEPMASS,
CHARGE, RTINSECONDS, IONMODE, ORGANISM, SEQ, SOURCE_INSTRUMENT) enforces
idempotent consistency: with the field already set, re-digesting the key
with the identical (validity-passing) value returns `Ok` and changes
nothing, while a differing value returns a hard error and leaves the
state unchanged; in particular `FEATURE_ID=1` then `FEATURE_ID=2` fails
while `FEATURE_ID=1` twice succeeds silently. -/
theorem C8_idempotent_consistency :
    (∀ (b : MascotGenericFormatMetadataBuilder) (payload : List Char) (n₁ n₂ : Nat),
      parseUsize payload = some n₂ → b.feature_id = some n₁ →
      ((n₁ = n₂ →
        b.digest_line (String.mk ("FEATURE_ID=".data ++ payload)) = (.ok (), b))
      ∧ (n₁ ≠ n₂ →
        b.digest_line (String.mk ("FEATURE_ID=".data ++ payload))
          = (.error (.featureIdMismatch (String.mk ("FEATURE_ID=".data ++ payload))),
             b))))
    ∧ (∀ (b : MascotGenericFormatMetadataBuilder) (payload : List Char) (v₁ v₂ : Frac),
      parseFrac payload = some v₂ → v₂.is_strictly_positive = true →
      b.parent_ion_mass = some v₁ →
      ((Frac.beq v₂ v₁ = true →
        b.digest_line (String.mk ("PEPMASS=".data ++ payload)) = (.ok (), b))
      ∧ (Frac.beq v₂ v₁ = false →
        b.digest_line (String.mk ("PEPMASS=".data ++ payload))
          = (.error (.pepmassMismatch (String.mk ("PEPMASS=".data ++ payload))), b))))
    ∧ (∀ (b : MascotGenericFormatMetadataBuilder) (payload : List Char) (c₁ c₂ : Charge),
      Charge.from_str (String.mk ("CHARGE=".data ++ payload)) = .ok c₂ →
      b.charge = some c₁ →
      ((c₁ = c₂ →
        b.digest_line (String.mk ("CHARGE=".data ++ payload)) = (.ok (), b))
      ∧ (c₁ ≠ c₂ →
        b.digest_line (String.mk ("CHARGE=".data ++ payload))
          = (.error (.chargeMismatch (String.mk ("CHARGE=".data ++ payload))), b))))
    ∧ (∀ (b : MascotGenericFormatMetadataBuilder) (payload : List Char) (v₁ v₂ : Frac),
      parseFrac payload = some v₂ → v₂.is_strictly_positive = true →
      b.retention_time = some v₁ →
      ((Frac.beq v₁ v₂ = true →
        b.digest_line (String.mk ("RTINSECONDS=".data ++ payload)) = (.ok (), b))
      ∧ (Frac.beq v₁ v₂ = false →
        b.digest_line (String.mk ("RTINSECONDS=".data ++ payload))
          = (.error (.rtMismatch (String.mk ("RTINSECONDS=".data ++ payload))), b))))
    ∧ (∀ (b : MascotGenericFormatMetadataBuilder) (payload : List Char) (m₁ m₂ : IonMode),
      IonMode.from_str (String.mk payload) = .ok m₂ →
      b.ion_mode = some m₁ →
      ((m₁ = m₂ →
        b.digest_line (String.mk ("IONMODE=".data ++ payload)) = (.ok (), b))
      ∧ (m₁ ≠ m₂ →
        b.digest_line (String.mk ("IONMODE=".data ++ payload))
          = (.error (.ionModeMismatch (String.mk ("IONMODE=".data ++ payload))), b))))
    ∧ (∀ (b : MascotGenericFormatMetadataBuilder) (payload : List Char) (s₁ : String),
      b.organism = some s₁ →
      ((s₁ = String.mk payload →
        b.digest_line (String.mk ("ORGANISM=".data ++ payload)) = (.ok (), b))
      ∧ (s₁ ≠ String.mk payload →
        b.digest_line (String.mk ("ORGANISM=".data ++ payload))
          = (.error (.organismMismatch (String.mk ("ORGANISM=".data ++ payload))), b))))
    ∧ (∀ (b : MascotGenericFormatMetadataBuilder) (payload : List Char) (s₁ : String),
      b.sequence = some s₁ →
      ((s₁ = String.mk payload →
        b.digest_line (String.mk ("SEQ=".data ++ payload)) = (.ok (), b))
      ∧ (s₁ ≠ String.mk payload →
        b.digest_line (String.mk ("SEQ=".data ++ payload))
          = (.error (.seqMismatch (String.mk ("SEQ=".data ++ payload))), b))))
    ∧ (∀ (b : MascotGenericFormatMetadataBuilder) (payload : List Char) (s₁ : String),
      b.source_instrument = some s₁ →
      ((s₁ = String.mk payload →
        b.digest_line (String.mk ("SOURCE_INSTRUMENT=".data ++ payload)) = (.ok (), b))
      ∧ (s₁ ≠ String.mk payload →
        b.digest_line (String.mk ("SOURCE_INSTRUMENT=".data ++ payload))
          = (.error
              (.sourceInstrumentMismatch
                (String.mk ("SOURCE_INSTRUMENT=".data ++ payload))),
             b))))
    ∧ (c8AfterFid1.digest_line "FEATURE_ID=2").1
        = .error (.featureIdMismatch "FEATURE_ID=2")
    ∧ c8AfterFid1.digest_line "FEATURE_ID=1" = (.ok (), c8AfterFid1) :=
  ⟨digest_feature_id_consistency, digest_pepmass_consistency,
    digest_charge_consistency, digest_retention_time_consistency,
    digest_ion_mode_consistency, digest_organism_consistency,
    digest_sequence_consistency, digest_source_instrument_consistency,
    rfl, rfl⟩

/-- C8, witnessed on the FEATURE_ID field at the state after
`FEATURE_ID=1`: the differing payload `2` is rejected with the state
unchanged, the identical payload `1` is a silent no-op. -/
theorem C8_idempotent_consistency_witness :
    c8AfterFid1.digest_line (String.mk ("FEATURE_ID=".data ++ "2".data))
      = (.error (.featureIdMismatch (String.mk ("FEATURE_ID=".data ++ "2".data))),
         c8AfterFid1)
    ∧ c8AfterFid1.digest_line (String.mk ("FEATURE_ID=".data ++ "1".data))
      = (.ok (), c8AfterFid1) :=
  ⟨(C8_idempotent_consistency.1 c8AfterFid1 "2".data 1 2 rfl rfl).2 (by decide),
    (C8_idempotent_consistency.1 c8AfterFid1 "1".data 1 1 rfl rfl).1 rfl⟩

/-- C10, witnessed at a failing parse (`TITLE=File:`) on the fresh
builder and at the successful peak push on `c7TwoState`. -/
theorem C10_data_digest_atomicity_witness :
    (MascotGenericFormatDataBuilder.default.digest_line "TITLE=File:").2
        = MascotGenericFormatDataBuilder.default
    ∧ (c7TwoState.digest_line "11.0 5.0").2.mass_divided_by_charge_ratios.length
        = (c7TwoState.digest_line "11.0 5.0").2.fragment_intensities.length :=
  ⟨C10_data_digest_atomicity.1 MascotGenericFormatDataBuilder.default "TITLE=File:"
      (.mzParseFailed "TITLE=File:")
      (MascotGenericFormatDataBuilder.default.digest_line "TITLE=File:").2 rfl,
    C10_data_digest_atomicity.2 c7TwoState "11.0 5.0"
      (c7TwoState.digest_line "11.0 5.0").1 (c7TwoState.digest_line "11.0 5.0").2 rfl rfl⟩

end MascotRs
